import Mathlib

/-!
Shallow embedding of the scrapo extraction core:
`src/models/product.py`, `src/scraper/base.py`, `src/scraper/utils.py`,
`src/scraper/amazon.py` and `src/scraper/daraz.py`.

Markup documents (BeautifulSoup tags) are external collaborators; a tag is
modelled as a `Node` carrying the outcomes of the selector / find queries the
scrapers perform, as oracle functions on the node.  All scraper logic is
translated statement-by-statement from the Python source.
-/

/-- Python `str.strip()`: remove leading and trailing whitespace.  (Defined by
structural recursion on the character list so that it reduces inside the
kernel, unlike `String.trim`.) -/
def String.pyStrip (s : String) : String :=
  String.mk (((s.data.dropWhile Char.isWhitespace).reverse.dropWhile Char.isWhitespace).reverse)

/-- Python `s[n:]` on a string (kernel-reducible version of `String.drop`). -/
def String.dropChars (s : String) (n : Nat) : String :=
  String.mk (s.data.drop n)

/-- Python `str.lower()` restricted to ASCII letters (the scraped attribute
names it is applied to are ASCII). -/
def String.asciiLower (s : String) : String :=
  String.mk (s.data.map (fun c =>
    if 'A' ≤ c ∧ c ≤ 'Z' then Char.ofNat (c.toNat + 32) else c))

namespace Scrapo

/-! ### Python semantics helpers -/

/-- Python `s[:n]` on a string: the first `n` characters. -/
def strTake (s : String) (n : Nat) : String :=
  String.mk (s.data.take n)

/-- Python `str.startswith(pat)`. -/
def charsPre : List Char → List Char → Bool
  | [], _ => true
  | _ :: _, [] => false
  | a :: as, b :: bs => a == b && charsPre as bs

/-- Python `pat in s` (substring containment), helper on char lists. -/
def charsContains (pat : List Char) : List Char → Bool
  | [] => charsPre pat []
  | c :: rest => charsPre pat (c :: rest) || charsContains pat rest

/-- Python `s.startswith(pat)`. -/
def pyStartsWith (s pat : String) : Bool :=
  charsPre pat.data s.data

/-- Python `pat in s`. -/
def strContains (s pat : String) : Bool :=
  charsContains pat.data s.data

/-- Python `s.endswith(pat)`. -/
def pyEndsWith (s pat : String) : Bool :=
  charsPre pat.data.reverse s.data.reverse

/-- Truthiness of a Python optional string (`None` and `""` are falsy). -/
def pyTruthyOptStr : Option String → Bool
  | some s => s ≠ ""
  | none => false

/-- Truthiness of a Python optional float (`None` and `0.0` are falsy). -/
def pyTruthyOptRat : Option ℚ → Bool
  | some q => q ≠ 0
  | none => false

/-- Truthiness of a Python optional int (`None` and `0` are falsy). -/
def pyTruthyOptInt : Option ℤ → Bool
  | some n => n ≠ 0
  | none => false

/-- Python `x or y` on optionals of the same type, where present values are
truthy (BeautifulSoup tags have default object truthiness). -/
def pyOrOpt {α : Type} (a b : Option α) : Option α :=
  match a with
  | some x => some x
  | none => b

/-- Python `xs or ys` on lists (an empty list is falsy). -/
def pyOrList {α : Type} (a b : List α) : List α :=
  if a.isEmpty then b else a

/-- Python `s or d` where a missing or empty string falls back to `d`
(used for `{product_id or i+1}` style expressions). -/
def pyOrOptStr (o : Option String) (d : String) : String :=
  match o with
  | some s => if s = "" then d else s
  | none => d

/-- Decimal value of a digit list (most significant first). -/
def natOfDigits (cs : List Char) : Nat :=
  cs.foldl (fun n c => 10 * n + (c.toNat - '0'.toNat)) 0

/-- Python `float(s)` on a string consisting of digits and dots only: succeeds
iff there is at least one digit and at most one dot; the value is the exact
decimal it denotes. -/
def pyFloatDigitsDots (s : String) : Option ℚ :=
  let cs := s.data
  if cs.all (fun c => c.isDigit || c == '.') ∧ cs.any Char.isDigit ∧ cs.count '.' ≤ 1 then
    let intDs := cs.takeWhile (fun c => c ≠ '.')
    let fracDs := (cs.dropWhile (fun c => c ≠ '.')).drop 1
    some ((natOfDigits intDs : ℚ) + (natOfDigits fracDs : ℚ) / 10 ^ fracDs.length)
  else
    none

/-- Python `float(s)` for the attribute strings the scrapers feed it: leading
and trailing whitespace is stripped, an optional sign is accepted, and the rest
must be a digits-and-dot form (exponent, `inf` and `nan` spellings are not
produced by the scraped attributes and are not modelled). -/
def pyFloat (s : String) : Option ℚ :=
  let t := s.pyStrip
  if pyStartsWith t "-" then (pyFloatDigitsDots (t.dropChars 1)).map (fun q => -q)
  else if pyStartsWith t "+" then pyFloatDigitsDots (t.dropChars 1)
  else pyFloatDigitsDots t

/-- Python `int(s)`: strip whitespace, optional sign, then a non-empty digit
string. -/
def pyInt (s : String) : Option ℤ :=
  let t := s.pyStrip
  let core := fun (u : String) =>
    if u.data ≠ [] ∧ u.data.all Char.isDigit then some ((natOfDigits u.data : ℤ)) else none
  if pyStartsWith t "-" then (core (t.dropChars 1)).map (fun n => -n)
  else if pyStartsWith t "+" then core (t.dropChars 1)
  else core t

/-- First match of the regex `\d+(\.\d+)?` in a string, as an exact rational
(the greedy digit run, with an optional dot-digits fraction). -/
def firstDecimalAux : List Char → Option ℚ
  | [] => none
  | c :: rest =>
    if c.isDigit then
      let ds := c :: rest.takeWhile Char.isDigit
      let rest2 := rest.dropWhile Char.isDigit
      let fs :=
        match rest2 with
        | '.' :: tl => tl.takeWhile Char.isDigit
        | _ => []
      if fs.isEmpty then some (natOfDigits ds : ℚ)
      else some ((natOfDigits ds : ℚ) + (natOfDigits fs : ℚ) / 10 ^ fs.length)
    else
      firstDecimalAux rest

/-- First match of `\d+(\.\d+)?` in a string. -/
def firstDecimal (s : String) : Option ℚ :=
  firstDecimalAux s.data

/-- First match of the regex `(\d+[\d,]*)` with commas removed, parsed as a
natural number (the review-count pattern). -/
def firstCountAux : List Char → Option Nat
  | [] => none
  | c :: rest =>
    if c.isDigit then
      let run := c :: rest.takeWhile (fun x => x.isDigit || x == ',')
      some (natOfDigits (run.filter Char.isDigit))
    else
      firstCountAux rest

/-- First match of `(\d+[\d,]*)`, commas stripped. -/
def firstCount (s : String) : Option Nat :=
  firstCountAux s.data

/-- First match of the regex `(\d+)%`: the first digit run immediately followed
by a percent sign (digits cannot match `%`, so greedy backtracking inside one
run never helps and the maximal run must be followed by `%`). -/
def firstIntPercentAux : List Char → Option ℤ
  | [] => none
  | c :: rest =>
    if c.isDigit then
      let run := c :: rest.takeWhile Char.isDigit
      let after := rest.dropWhile Char.isDigit
      match after with
      | '%' :: _ => some (natOfDigits run : ℤ)
      | _ => firstIntPercentAux rest
    else
      firstIntPercentAux rest

/-- First match of `(\d+)%`. -/
def firstIntPercent (s : String) : Option ℤ :=
  firstIntPercentAux s.data

/-- Search predicate for the regex `\d+[\d,]*\s*(ratings|reviews)`: some digit
starts a digit-and-comma run followed by whitespace and one of the two words.
(Characters dropped by backtracking inside the run are digits or commas and can
never match the literal words, so the maximal-run reading is exact.) -/
def countWordAux : List Char → Bool
  | [] => false
  | c :: rest =>
    (c.isDigit &&
      (let after := (rest.dropWhile (fun x => x.isDigit || x == ',')).dropWhile Char.isWhitespace
       charsPre "ratings".data after || charsPre "reviews".data after))
    || countWordAux rest

/-- BeautifulSoup string predicate for `re.compile(r'\d+[\d,]*\s*(ratings|reviews)')`. -/
def countWordPred (x : String) : Bool :=
  x ≠ "" && countWordAux x.data

/-! ### Markup node model

A BeautifulSoup tag (`MarkupNode` in the spec).  The selector language is
external: each node carries, as oracle functions, the answers the document
would give to `select_one`, `select`, `find('span', string=...)` and
`find(class_=re.compile(...))` queries. -/

inductive Node where
  | mk
    (tag : String)
    (attrs : List (String × String))
    (text : String)
    (selectOne : String → Option Node)
    (selectAll : String → List Node)
    (findSpanBy : (String → Bool) → Option Node)
    (findByClass : String → Option Node)

/-- Tag name (`elem.name`). -/
def Node.tag : Node → String
  | .mk t _ _ _ _ _ _ => t

/-- Attribute dictionary (`elem.attrs`). -/
def Node.attrs : Node → List (String × String)
  | .mk _ a _ _ _ _ _ => a

/-- BeautifulSoup `elem.get_text()` / `elem.text`. -/
def Node.text : Node → String
  | .mk _ _ t _ _ _ _ => t

/-- BeautifulSoup `elem.select_one(selector)`. -/
def Node.selectOne : Node → String → Option Node
  | .mk _ _ _ so _ _ _ => so

/-- BeautifulSoup `elem.select(selector)`. -/
def Node.selectAll : Node → String → List Node
  | .mk _ _ _ _ sa _ _ => sa

/-- BeautifulSoup `elem.find('span', string=pred)`. -/
def Node.findSpanBy : Node → (String → Bool) → Option Node
  | .mk _ _ _ _ _ f _ => f

/-- BeautifulSoup `elem.find(class_=re.compile(pat))`. -/
def Node.findByClass : Node → String → Option Node
  | .mk _ _ _ _ _ _ f => f

/-- BeautifulSoup `elem.get(key)` / guarded `elem[key]`: first binding of the attribute. -/
def Node.getAttr (n : Node) (k : String) : Option String :=
  (n.attrs.find? (fun p => p.1 = k)).map Prod.snd

/-- BeautifulSoup `elem.has_attr(key)`. -/
def Node.hasAttr (n : Node) (k : String) : Bool :=
  (n.getAttr k).isSome

/-! ### `TrendingProduct` (src/models/product.py) -/

/-- The `TrendingProduct` dataclass.  `rating` is modelled as an exact rational
(the parsed decimals are exactly representable), `review_count` and `rank` as
integers.  `extracted_at` is filled by a clock read in the source
(`datetime.datetime.now().isoformat()`); construction sites in this model use
the placeholder `""` since no claim depends on the timestamp value. -/
structure TrendingProduct where
  title : String
  url : String
  price : Option String := none
  rating : Option ℚ := none
  review_count : Option ℤ := none
  image_url : Option String := none
  rank : Option ℤ := none
  category : Option String := none
  availability : Option String := none
  description : Option String := none
  features : List String := []
  source : String := "amazon.in"
  extracted_at : String := ""
  deriving Repr, DecidableEq

/-- A Python value as it appears in a `TrendingProduct` dict. -/
inductive PyValue where
  | vStr (s : String)
  | vOptStr (o : Option String)
  | vOptRat (o : Option ℚ)
  | vOptInt (o : Option ℤ)
  | vStrList (l : List String)
  | vInt (n : ℤ)
  deriving Repr, DecidableEq

/-- A live Python `TrendingProduct` instance: the declared dataclass fields
plus any dynamically attached attributes (`seller`, `discount_percentage` are
attached by `DarazNpScraper.get_product_details`). -/
structure PyObj where
  fields : TrendingProduct
  extra : List (String × PyValue)
  deriving Repr, DecidableEq

/-- Attach or replace a dynamic attribute (`obj.name = value` for a non-field
name). -/
def PyObj.setExtra (o : PyObj) (k : String) (v : PyValue) : PyObj :=
  { o with extra := (o.extra.filter (fun p => p.1 ≠ k)) ++ [(k, v)] }

/-- Declared dataclass field names, in declaration order. -/
def validFields : List String :=
  ["title", "url", "price", "rating", "review_count", "image_url", "rank",
   "category", "availability", "description", "features", "source", "extracted_at"]

/-- Source `TrendingProduct.to_dict` (`dataclasses.asdict`): the declared fields, in
declaration order.  Dynamically attached attributes are not fields and do not
appear. -/
def TrendingProduct.toDict (p : TrendingProduct) : List (String × PyValue) :=
  [("title", .vStr p.title), ("url", .vStr p.url), ("price", .vOptStr p.price),
   ("rating", .vOptRat p.rating), ("review_count", .vOptInt p.review_count),
   ("image_url", .vOptStr p.image_url), ("rank", .vOptInt p.rank),
   ("category", .vOptStr p.category), ("availability", .vOptStr p.availability),
   ("description", .vOptStr p.description), ("features", .vStrList p.features),
   ("source", .vStr p.source), ("extracted_at", .vStr p.extracted_at)]

/-- Python `asdict` on a live instance ignores attached non-field attributes. -/
def PyObj.toDict (o : PyObj) : List (String × PyValue) :=
  o.fields.toDict

/-- Dictionary lookup (first binding). -/
def dictLookup (d : List (String × PyValue)) (k : String) : Option PyValue :=
  match d with
  | [] => none
  | (k', v) :: rest => if k' = k then some v else dictLookup rest k

/-- A required string field: absent or untypeable means `cls(**...)` fails. -/
def reqStr (d : List (String × PyValue)) (k : String) : Option String :=
  match dictLookup d k with
  | some (.vStr s) => some s
  | _ => none

/-- An optional-string field, `None` by default. -/
def optStrField (d : List (String × PyValue)) (k : String) : Option (Option String) :=
  match dictLookup d k with
  | some (.vOptStr o) => some o
  | none => some none
  | some _ => none

/-- An optional-float field, `None` by default. -/
def optRatField (d : List (String × PyValue)) (k : String) : Option (Option ℚ) :=
  match dictLookup d k with
  | some (.vOptRat o) => some o
  | none => some none
  | some _ => none

/-- An optional-int field, `None` by default. -/
def optIntField (d : List (String × PyValue)) (k : String) : Option (Option ℤ) :=
  match dictLookup d k with
  | some (.vOptInt o) => some o
  | none => some none
  | some _ => none

/-- A string-list field, `[]` by default. -/
def strListField (d : List (String × PyValue)) (k : String) : Option (List String) :=
  match dictLookup d k with
  | some (.vStrList l) => some l
  | none => some []
  | some _ => none

/-- A defaulted string field. -/
def defStr (d : List (String × PyValue)) (k dflt : String) : Option String :=
  match dictLookup d k with
  | some (.vStr s) => some s
  | none => some dflt
  | some _ => none

/-- Source `TrendingProduct.from_dict`: the source first filters the dictionary to the
declared field names and then calls `cls(**filtered)`, so exactly the declared
field names are consulted (modelled by looking up precisely those keys);
missing optional fields take their dataclass defaults, a missing
`extracted_at` takes the clock read `now`, and a missing required field
(`title`, `url`) is a `TypeError`, modelled as `none`. -/
def TrendingProduct.fromDict (now : String) (data : List (String × PyValue)) :
    Option TrendingProduct := do
  let title ← reqStr data "title"
  let url ← reqStr data "url"
  let price ← optStrField data "price"
  let rating ← optRatField data "rating"
  let review_count ← optIntField data "review_count"
  let image_url ← optStrField data "image_url"
  let rank ← optIntField data "rank"
  let category ← optStrField data "category"
  let availability ← optStrField data "availability"
  let description ← optStrField data "description"
  let features ← strListField data "features"
  let source ← defStr data "source" "amazon.in"
  let extracted_at ← defStr data "extracted_at" now
  pure { title, url, price, rating, review_count, image_url, rank, category,
         availability, description, features, source, extracted_at }

/-! ### Shared extraction shapes

`amazon.py` and `daraz.py` duplicate several statement sequences verbatim up to
selector strings and identifier names; those shapes are factored here with the
varying selector passed as a parameter, and each site instantiates them below. -/

/-- Listing-card title (amazon.py lines 77–94, daraz.py lines 77–94): the
site's title selector, else `img[alt]`; an `img` hit reads its `alt`; an empty
result falls back to the card's full text truncated to 100 characters, else to
`"Unknown Product {ident or i+1}"`. -/
def listingTitle (titleSel : String) (item : Node) (ident : Option String) (i : Nat) : String :=
  let title_elem := pyOrOpt (item.selectOne titleSel) (item.selectOne "img[alt]")
  let title :=
    match title_elem with
    | some e =>
      if e.tag == "img" && e.hasAttr "alt" then (e.getAttr "alt").getD "" else e.text.pyStrip
    | none => ""
  if title ≠ "" then title
  else
    let potential_title := item.text.pyStrip
    if potential_title ≠ "" then strTake potential_title 100
    else "Unknown Product " ++ pyOrOptStr ident (toString (i + 1))

/-- Listing-card URL (amazon.py lines 96–104, daraz.py lines 96–104): the first
`a[href]` hit, made absolute against the base URL unless it already starts with
`http`; with no usable link the site-specific fallback URL is used. -/
def listingUrl (base_url : String) (item : Node) (fallback : String) : String :=
  match item.selectOne "a[href]" with
  | some link =>
    match link.getAttr "href" with
    | some href => if pyStartsWith href "http" then href else base_url ++ href
    | none => fallback
  | none => fallback

/-- The price selector loop (amazon.py lines 106–118, daraz.py lines 106–117):
the loop breaks at the first selector whose `select_one` finds an element and
takes that element's stripped text, even when that text is empty. -/
def selectorChainPrice (item : Node) : List String → Option String
  | [] => none
  | sel :: rest =>
    match item.selectOne sel with
    | some e => some (e.text.pyStrip)
    | none => selectorChainPrice item rest

/-- Full price extraction (amazon.py lines 106–122, daraz.py lines 106–121):
the selector loop, then — when the result is `None` or empty — the
currency-symbol span fallback, whose result (possibly `None`) replaces it. -/
def priceFromSelectors (item : Node) (selectors : List String) (pred : String → Bool) :
    Option String :=
  let price := selectorChainPrice item selectors
  if pyTruthyOptStr price then price
  else (item.findSpanBy pred).map (fun e => e.text.pyStrip)

/-- Page-level category from a breadcrumb node (amazon.py lines 176–182,
daraz.py lines 177–183): the stripped text of the last breadcrumb element, when
any exists. -/
def categoryFromBreadcrumb (soup : Node) (bcSel linkSel : String) : Option String :=
  match soup.selectOne bcSel with
  | some bc =>
    match (bc.selectAll linkSel).getLast? with
    | some e => some (e.text.pyStrip)
    | none => none
  | none => none

/-- Python `for i, item in enumerate(cards): products.append(build(item, i))` — every
card in the capped list yields exactly one record, in order (the per-card
`except` arm is unreachable in this total model, matching the claims'
no-uncaught-exception proviso). -/
def extractCardsLoop (build : Node → Nat → TrendingProduct) : List Node → Nat → List TrendingProduct
  | [], _ => []
  | item :: rest, i => build item i :: extractCardsLoop build rest (i + 1)

/-- Outcome of fetching-and-parsing one page: `get_page` returned `None`, the
parse/extraction raised (caught by the page-level handler), or a parsed
document. -/
inductive PageOutcome where
  | fetchFail
  | parseFail
  | page (soup : Node)

/-- Source `get_trending_products` loop shape (amazon.py lines 37–46, daraz.py lines
37–46): listing pages in configured order, first page with any records wins,
else the homepage tier. -/
def getTrendingLoop (extractPage : String → List TrendingProduct)
    (homepage : List TrendingProduct) : List String → List TrendingProduct
  | [] => homepage
  | p :: rest =>
    let products := extractPage p
    if products.isEmpty then getTrendingLoop extractPage homepage rest else products

/-! ### DarazNpScraper (src/scraper/daraz.py) -/

/-- daraz.py lines 70–75: first attribute whose lowercased name contains
`data-item-id` and whose value is truthy. -/
def darazProductId (item : Node) : Option String :=
  (item.attrs.find? (fun p => strContains p.1.asciiLower "data-item-id" && p.2 ≠ "")).map Prod.snd

/-- daraz.py lines 103–104: URL fallback when the card has no usable link. -/
def darazUrlFallback (base_url : String) (product_id : Option String) : String :=
  match product_id with
  | some pid => if pid ≠ "" then base_url ++ "/products/" ++ pid else base_url ++ "/trending-products/"
  | none => base_url ++ "/trending-products/"

/-- daraz.py lines 108–112. -/
def darazPriceSelectors : List String := [".c13VH6, .c1-B2V", ".c3gUW0", ".c1hkC1"]

/-- daraz.py line 120: `lambda x: x and ('Rs.' in x or 'रू' in x or 'NPR' in x)`. -/
def darazCurrencyPred (x : String) : Bool :=
  x ≠ "" && (strContains x "Rs." || strContains x "रू" || strContains x "NPR")

/-- daraz.py lines 106–121. -/
def darazPrice (item : Node) : Option String :=
  priceFromSelectors item darazPriceSelectors darazCurrencyPred

/-- daraz.py lines 123–129: `img[src]`, reading `src`, else `data-src`. -/
def darazImage (item : Node) : Option String :=
  match item.selectOne "img[src]" with
  | some img =>
    match img.getAttr "src" with
    | some src => some src
    | none => img.getAttr "data-src"
  | none => none

/-- daraz.py lines 133–137. -/
def darazRatingSelectors : List String := [".c3XbGJ", ".c3dn4k", "[data-rating]"]

/-- daraz.py lines 131–152: per selector hit, a parsable `data-rating`
attribute wins, else the first decimal in the element text; otherwise the next
selector is tried. -/
def darazRatingChain (item : Node) : List String → Option ℚ
  | [] => none
  | sel :: rest =>
    match item.selectOne sel with
    | none => darazRatingChain item rest
    | some e =>
      match (match e.getAttr "data-rating" with
             | some v => pyFloat v
             | none => none) with
      | some r => some r
      | none =>
        match firstDecimal e.text.pyStrip with
        | some r => some r
        | none => darazRatingChain item rest

/-- daraz.py lines 156–160. -/
def darazReviewSelectors : List String := [".c3XbGJ + span", ".c2JB4x", "span[data-reviews]"]

/-- daraz.py lines 154–175: per selector hit, a parsable `data-reviews`
attribute wins, else the first count pattern in the element text. -/
def darazReviewChain (item : Node) : List String → Option ℤ
  | [] => none
  | sel :: rest =>
    match item.selectOne sel with
    | none => darazReviewChain item rest
    | some e =>
      match (match e.getAttr "data-reviews" with
             | some v => pyInt v
             | none => none) with
      | some n => some n
      | none =>
        match firstCount e.text.pyStrip with
        | some n => some (n : ℤ)
        | none => darazReviewChain item rest

/-- daraz.py lines 177–183. -/
def darazCategory (soup : Node) : Option String :=
  categoryFromBreadcrumb soup ".c1nVRb, .ant-breadcrumb" "a, span"

/-- One listing card → one record (daraz.py lines 68–195).  `source` is not
passed, so the record keeps the dataclass default `"amazon.in"`. -/
def darazExtractCard (base_url : String) (soup : Node) (item : Node) (i : Nat) : TrendingProduct :=
  let product_id := darazProductId item
  { title := listingTitle ".c16H9d, .c3KeDq, .c16TX_" item product_id i
    url := listingUrl base_url item (darazUrlFallback base_url product_id)
    price := darazPrice item
    image_url := darazImage item
    rating := darazRatingChain item darazRatingSelectors
    review_count := darazReviewChain item darazReviewSelectors
    rank := some ((i : ℤ) + 1)
    category := darazCategory soup }

/-- daraz.py lines 61–63: the card locator or-chain. -/
def darazCards (soup : Node) : List Node :=
  pyOrList (soup.selectAll ".Bm3ON, .c2iYAv")
    (pyOrList (soup.selectAll ".c1ZEkM") (soup.selectAll ".c5TXIP"))

/-- daraz.py line 67: `product_items[:20]`. -/
def darazListingCapped (soup : Node) : List Node :=
  (darazCards soup).take 20

/-- daraz.py lines 54–204: records from one parsed listing page. -/
def darazPageProducts (base_url : String) (soup : Node) : List TrendingProduct :=
  extractCardsLoop (darazExtractCard base_url soup) (darazListingCapped soup) 0

/-- daraz.py lines 48–208: fetch failure and parse failure both yield `[]`. -/
def darazExtractFromPage (base_url : String) (o : PageOutcome) : List TrendingProduct :=
  match o with
  | .fetchFail => []
  | .parseFail => []
  | .page soup => darazPageProducts base_url soup

/-- daraz.py lines 222–223: the homepage card locator or-chain. -/
def darazHomeCards (soup : Node) : List Node :=
  pyOrList (soup.selectAll ".card-jfy-item-wrapper, .slick-slide > div")
    (soup.selectAll ".c1_t2i, .c2iYAv")

/-- daraz.py line 228: `carousel_items[:10]`. -/
def darazHomeCapped (soup : Node) : List Node :=
  (darazHomeCards soup).take 10

/-- One homepage carousel card → one record (daraz.py lines 229–271). -/
def darazHomeCard (base_url : String) (item : Node) (i : Nat) : TrendingProduct :=
  let title_elem := pyOrOpt (item.selectOne "img[alt]") (item.selectOne ".c16H9d, .c3KeDq")
  let t :=
    match title_elem with
    | some e =>
      if e.tag == "img" && e.hasAttr "alt" then (e.getAttr "alt").getD "" else e.text.pyStrip
    | none => ""
  let title := if t ≠ "" then t else "Featured Product " ++ toString (i + 1)
  let url :=
    match item.selectOne "a[href]" with
    | some link =>
      match link.getAttr "href" with
      | some href => if pyStartsWith href "http" then href else base_url ++ href
      | none => base_url
    | none => base_url
  let image_url := darazImage item
  let price := (item.selectOne ".c13VH6, .c1-B2V, .c3gUW0").map (fun e => e.text.pyStrip)
  { title := title
    url := url
    image_url := image_url
    price := price
    rank := some ((i : ℤ) + 1)
    source := "daraz.np_homepage" }

/-- daraz.py lines 284–288: the sentinel record. -/
def darazSentinel : TrendingProduct :=
  { title := "No trending products found"
    url := "https://www.daraz.np"
    source := "daraz.np_not_found" }

/-- daraz.py lines 210–292: homepage tier.  A failed fetch or a parse
exception returns `[]`; a parsed page with no extracted products returns the
single sentinel record. -/
def darazHomepageProducts (base_url : String) (o : PageOutcome) : List TrendingProduct :=
  match o with
  | .fetchFail => []
  | .parseFail => []
  | .page soup =>
    let products := extractCardsLoop (darazHomeCard base_url) (darazHomeCapped soup) 0
    if products.isEmpty then [darazSentinel] else products

/-- daraz.py lines 27–46: the full pipeline, over a fetch-and-parse oracle from
page paths to outcomes (`"/"` is the homepage path). -/
def darazGetTrending (base_url : String) (fetch : String → PageOutcome)
    (pages : List String) : List TrendingProduct :=
  getTrendingLoop (fun p => darazExtractFromPage base_url (fetch p))
    (darazHomepageProducts base_url (fetch "/")) pages

/-- daraz.py line 24: the default trending pages. -/
def darazDefaultPages : List String := ["/trending-products/", "/top-selling-products/"]

/-- daraz.py lines 322–327: detail-page feature texts, first 10 elements,
keeping stripped texts that are non-empty and longer than 5 characters. -/
def darazDetailFeatures (soup : Node) : List String :=
  ((soup.selectAll ".specification-keys, .pdp-product-highlights li, .key-features li").take 10).filterMap
    (fun e => let t := e.text.pyStrip; if t ≠ "" && t.length > 5 then some t else none)

/-- Detail-page description assignment (amazon.py lines 306–311, daraz.py
lines 314–319): assigned whenever the selector hits, with no emptiness check
on the existing record. -/
def detailDescStage (descSel : String) (soup : Node) (p : TrendingProduct) : TrendingProduct :=
  match soup.selectOne descSel with
  | some e => { p with description := some (strTake e.text.pyStrip 500) }
  | none => p

/-- Detail-page features assignment (amazon.py lines 313–322, daraz.py lines
321–330): assigned whenever the extracted list is non-empty. -/
def detailFeatStage (features : List String) (p : TrendingProduct) : TrendingProduct :=
  if features.isEmpty then p else { p with features := features }

/-- Detail-page availability assignment (amazon.py lines 324–329, daraz.py
lines 332–337): assigned whenever the selector hits. -/
def detailAvailStage (availSel : String) (soup : Node) (p : TrendingProduct) : TrendingProduct :=
  match soup.selectOne availSel with
  | some e => { p with availability := some e.text.pyStrip }
  | none => p

/-- Detail-page category update (amazon.py lines 331–337, daraz.py lines
339–345): only assigned when the existing category is `None` or empty. -/
def detailCatStage (bcSel linkSel : String) (soup : Node) (p : TrendingProduct) : TrendingProduct :=
  if pyTruthyOptStr p.category then p
  else
    match categoryFromBreadcrumb soup bcSel linkSel with
    | some c => { p with category := some c }
    | none => p

/-- daraz.py lines 347–350: the seller attribute attachment. -/
def sellerStage (soup : Node) (o : PyObj) : PyObj :=
  match soup.selectOne ".seller-name, .pdp-seller-info-name" with
  | some e => o.setExtra "seller" (.vStr e.text.pyStrip)
  | none => o

/-- daraz.py lines 352–358: the discount-percentage attribute attachment. -/
def discountStage (soup : Node) (o : PyObj) : PyObj :=
  match soup.selectOne ".pdp-product-price__discount, .discount-percentage" with
  | some e =>
    match firstIntPercent e.text.pyStrip with
    | some n => o.setExtra "discount_percentage" (.vInt n)
    | none => o
  | none => o

/-- daraz.py lines 347–358: the seller and discount attribute attachments. -/
def darazDetailExtras (soup : Node) (o : PyObj) : PyObj :=
  discountStage soup (sellerStage soup o)

/-- daraz.py lines 311–361: the successful-parse enrichment body, in source
order: description, features, availability, category, then the attached
seller/discount attributes.  `description`, `features` and `availability` are
assigned whenever the detail page yields them, with no emptiness check on the
existing record; only `category` is guarded by `if not product.category`. -/
def darazDetailsBody (soup : Node) (product : PyObj) : PyObj :=
  let p :=
    detailCatStage ".c1nVRb, .ant-breadcrumb, .pdp-breadcrumb" "a, span" soup
      (detailAvailStage ".quantity-content, .pdp-stock" soup
        (detailFeatStage (darazDetailFeatures soup)
          (detailDescStage ".html-content, .pdp-product-desc, .pdp-mod-description" soup
            product.fields)))
  darazDetailExtras soup { product with fields := p }

/-- daraz.py lines 294–365: `get_product_details`.  A failed fetch (and a parse
exception, which occurs before any assignment) returns the record unchanged. -/
def darazDetails (o : PageOutcome) (product : PyObj) : PyObj :=
  match o with
  | .fetchFail => product
  | .parseFail => product
  | .page soup => darazDetailsBody soup product

/-! ### AmazonInScraper (src/scraper/amazon.py) -/

/-- amazon.py lines 69–75: `item.get('data-asin')`, else the first attribute
whose lowercased name contains `asin` with a truthy value (a falsy `data-asin`
value survives when the scan also misses). -/
def amazonAsin (item : Node) : Option String :=
  let asin := item.getAttr "data-asin"
  if pyTruthyOptStr asin then asin
  else
    match item.attrs.find? (fun p => strContains p.1.asciiLower "asin" && p.2 ≠ "") with
    | some p => some p.2
    | none => asin

/-- amazon.py lines 103–104: URL fallback when the card has no usable link. -/
def amazonUrlFallback (base_url : String) (asin : Option String) : String :=
  if pyTruthyOptStr asin then base_url ++ "/dp/" ++ ((asin).getD "")
  else base_url ++ "/s?k=trending"

/-- amazon.py lines 108–113. -/
def amazonPriceSelectors : List String :=
  [".a-price .a-offscreen", ".a-price-whole", ".p13n-sc-price", "[data-a-price-whole]"]

/-- amazon.py line 121: `lambda x: x and '₹' in x`. -/
def amazonCurrencyPred (x : String) : Bool :=
  x ≠ "" && strContains x "₹"

/-- amazon.py lines 106–122. -/
def amazonPrice (item : Node) : Option String :=
  priceFromSelectors item amazonPriceSelectors amazonCurrencyPred

/-- amazon.py lines 124–128: `img[src]`, reading `src` only. -/
def amazonImage (item : Node) : Option String :=
  match item.selectOne "img[src]" with
  | some img => img.getAttr "src"
  | none => none

/-- amazon.py lines 132–137. -/
def amazonRatingSelectors : List String :=
  ["i.a-icon-star", ".a-star-medium-4", "span[data-a-icon-alt*=\x22out of 5 stars\x22]", ".a-icon-alt"]

/-- amazon.py lines 138–145: per selector hit, the first decimal in the element
text wins; a hit without a decimal falls through to the next selector. -/
def amazonRatingChain (item : Node) : List String → Option ℚ
  | [] => none
  | sel :: rest =>
    match item.selectOne sel with
    | none => amazonRatingChain item rest
    | some e =>
      match firstDecimal e.text.pyStrip with
      | some r => some r
      | none => amazonRatingChain item rest

/-- amazon.py lines 130–151: the selector chain, then — when the result is
`None` or `0.0` — the `find(class_=re.compile('star'))` fallback, whose parse
result (possibly `None`) replaces it when the found element has a truthy
`title`. -/
def amazonRating (item : Node) : Option ℚ :=
  let rating := amazonRatingChain item amazonRatingSelectors
  if pyTruthyOptRat rating then rating
  else
    match item.findByClass "star" with
    | some e =>
      match e.getAttr "title" with
      | some t => if t ≠ "" then firstDecimal t else rating
      | none => rating
    | none => rating

/-- amazon.py lines 155–159. -/
def amazonReviewSelectors : List String :=
  ["a.a-link-normal[title*=\x22review\x22]", ".a-size-small[aria-label*=\x22review\x22]",
   "span[id*=\x22customerReviews\x22]"]

/-- amazon.py lines 160–167. -/
def amazonReviewChain (item : Node) : List String → Option ℤ
  | [] => none
  | sel :: rest =>
    match item.selectOne sel with
    | none => amazonReviewChain item rest
    | some e =>
      match firstCount e.text.pyStrip with
      | some n => some (n : ℤ)
      | none => amazonReviewChain item rest

/-- amazon.py lines 153–173: the selector chain, then — when the result is
`None` or `0` — the ratings/reviews span fallback, whose parse result
(possibly `None`) replaces it when the span is found. -/
def amazonReviewCount (item : Node) : Option ℤ :=
  let rc := amazonReviewChain item amazonReviewSelectors
  if pyTruthyOptInt rc then rc
  else
    match item.findSpanBy countWordPred with
    | some e => (firstCount e.text).map (fun n => (n : ℤ))
    | none => rc

/-- amazon.py lines 176–182. -/
def amazonCategory (soup : Node) : Option String :=
  categoryFromBreadcrumb soup "#wayfinding-breadcrumbs_feature_div" "a"

/-- One listing card → one record (amazon.py lines 68–194).  `source` keeps the
dataclass default `"amazon.in"`. -/
def amazonExtractCard (base_url : String) (soup : Node) (item : Node) (i : Nat) : TrendingProduct :=
  let asin := amazonAsin item
  { title := listingTitle ".a-size-medium, .a-size-base, .a-link-normal > span" item asin i
    url := listingUrl base_url item (amazonUrlFallback base_url asin)
    price := amazonPrice item
    image_url := amazonImage item
    rating := amazonRating item
    review_count := amazonReviewCount item
    rank := some ((i : ℤ) + 1)
    category := amazonCategory soup }

/-- amazon.py lines 61–63: the card locator or-chain. -/
def amazonCards (soup : Node) : List Node :=
  pyOrList (soup.selectAll "li.a-carousel-card, div[data-asin]:not([data-asin=\x22\x22])")
    (pyOrList (soup.selectAll ".a-carousel-card")
      (soup.selectAll "[data-asin]:not([data-asin=\x22\x22])"))

/-- amazon.py line 67: `product_items[:20]`. -/
def amazonListingCapped (soup : Node) : List Node :=
  (amazonCards soup).take 20

/-- amazon.py lines 54–203: records from one parsed listing page. -/
def amazonPageProducts (base_url : String) (soup : Node) : List TrendingProduct :=
  extractCardsLoop (amazonExtractCard base_url soup) (amazonListingCapped soup) 0

/-- amazon.py lines 48–207. -/
def amazonExtractFromPage (base_url : String) (o : PageOutcome) : List TrendingProduct :=
  match o with
  | .fetchFail => []
  | .parseFail => []
  | .page soup => amazonPageProducts base_url soup

/-- amazon.py lines 221–222: the homepage card locator or-chain. -/
def amazonHomeCards (soup : Node) : List Node :=
  pyOrList (soup.selectAll ".a-carousel-card") (soup.selectAll ".feed-carousel-card")

/-- amazon.py line 227: `carousel_items[:10]`. -/
def amazonHomeCapped (soup : Node) : List Node :=
  (amazonHomeCards soup).take 10

/-- One homepage carousel card → one record (amazon.py lines 228–263). -/
def amazonHomeCard (base_url : String) (item : Node) (i : Nat) : TrendingProduct :=
  let title_elem := pyOrOpt (item.selectOne "img[alt]") (item.selectOne "a[title]")
  let t :=
    match title_elem with
    | some e =>
      if e.tag == "img" && e.hasAttr "alt" then (e.getAttr "alt").getD ""
      else if e.hasAttr "title" then (e.getAttr "title").getD ""
      else e.text.pyStrip
    | none => ""
  let title := if t ≠ "" then t else "Featured Product " ++ toString (i + 1)
  let url :=
    match item.selectOne "a[href]" with
    | some link =>
      match link.getAttr "href" with
      | some href => if pyStartsWith href "http" then href else base_url ++ href
      | none => base_url
    | none => base_url
  { title := title
    url := url
    image_url := amazonImage item
    rank := some ((i : ℤ) + 1)
    source := "amazon.in_homepage" }

/-- amazon.py lines 276–280: the sentinel record. -/
def amazonSentinel : TrendingProduct :=
  { title := "No trending products found"
    url := "https://www.amazon.in"
    source := "amazon.in_not_found" }

/-- amazon.py lines 209–284: homepage tier. -/
def amazonHomepageProducts (base_url : String) (o : PageOutcome) : List TrendingProduct :=
  match o with
  | .fetchFail => []
  | .parseFail => []
  | .page soup =>
    let products := extractCardsLoop (amazonHomeCard base_url) (amazonHomeCapped soup) 0
    if products.isEmpty then [amazonSentinel] else products

/-- amazon.py lines 27–46: the full pipeline. -/
def amazonGetTrending (base_url : String) (fetch : String → PageOutcome)
    (pages : List String) : List TrendingProduct :=
  getTrendingLoop (fun p => amazonExtractFromPage base_url (fetch p))
    (amazonHomepageProducts base_url (fetch "/")) pages

/-- config.py: the configured Amazon listing pages, in order. -/
def amazonDefaultPages : List String :=
  ["/gp/bestsellers/", "/gp/new-releases/", "/gp/movers-and-shakers/", "/deals/"]

/-- amazon.py lines 313–319: detail-page feature texts. -/
def amazonDetailFeatures (soup : Node) : List String :=
  ((soup.selectAll "#feature-bullets li, #detailBullets li, .a-unordered-list li").take 10).filterMap
    (fun e => let t := e.text.pyStrip; if t ≠ "" && t.length > 5 then some t else none)

/-- amazon.py lines 303–340: the successful-parse enrichment body; the same
unguarded assignments as the Daraz variant, `category` alone guarded by
`if not product.category`. -/
def amazonDetailsBody (soup : Node) (p : TrendingProduct) : TrendingProduct :=
  detailCatStage "#wayfinding-breadcrumbs_feature_div" "a" soup
    (detailAvailStage "#availability, #outOfStock" soup
      (detailFeatStage (amazonDetailFeatures soup)
        (detailDescStage "#productDescription, #feature-bullets, #aplus" soup p)))

/-- amazon.py lines 286–344: `get_product_details`. -/
def amazonDetails (o : PageOutcome) (p : TrendingProduct) : TrendingProduct :=
  match o with
  | .fetchFail => p
  | .parseFail => p
  | .page soup => amazonDetailsBody soup p

/-! ### Text/number normalizer (src/scraper/utils.py, src/models/product.py) -/

/-- utils.py lines 60–79, `extract_numeric`: `re.sub(r'[^\d.]', '', text)`
keeps digits and dots, then `float(...)` with `ValueError` mapped to `None`;
an empty input is rejected up front by `if not text`. -/
def keepNumeric (s : String) : String :=
  String.mk (s.data.filter (fun c => c.isDigit || c == '.'))

/-- utils.py lines 60–79. -/
def extract_numeric (text : String) : Option ℚ :=
  if text = "" then none
  else pyFloatDigitsDots (keepNumeric text)

/-- product.py lines 31–41, `TrendingProduct.get_numeric_price`: `None` or an
empty price string yields `None`; otherwise the same strip-and-parse as
`extract_numeric`. -/
def TrendingProduct.getNumericPrice (p : TrendingProduct) : Option ℚ :=
  match p.price with
  | none => none
  | some s => if s = "" then none else pyFloatDigitsDots (keepNumeric s)

/-! ### `WebsiteScraper.get_page` (src/scraper/base.py lines 38–67)

The network is an oracle from attempt number to an optional response; `time.sleep`
is modelled by recording the requested delays, in order.  Defaults in the source:
`retry = 3`, `backoff_factor = 0.5`. -/

/-- The `for attempt in range(retry)` loop over a list of attempt indices: a
successful attempt returns at once; a failed attempt records the backoff delay
`backoff_factor * 2 ** attempt` unless it was the last attempt. -/
def getPageLoop {α : Type} (fetch : Nat → Option α) (backoff : ℚ) (retry : Nat) :
    List Nat → Option α × List ℚ
  | [] => (none, [])
  | attempt :: rest =>
    match fetch attempt with
    | some r => (some r, [])
    | none =>
      let res := getPageLoop fetch backoff retry rest
      if attempt < retry - 1 then (res.1, backoff * 2 ^ attempt :: res.2) else res

/-- base.py lines 38–67: the result and the sequence of sleep delays. -/
def getPage {α : Type} (fetch : Nat → Option α) (retry : Nat) (backoff : ℚ) :
    Option α × List ℚ :=
  getPageLoop fetch backoff retry (List.range retry)

/-! ### Example documents and oracles, used by concrete evaluations -/

/-- A node on which every query misses. -/
def blankNode : Node :=
  .mk "" [] "" (fun _ => none) (fun _ => []) (fun _ => none) (fun _ => none)

/-- A document whose every `select` call returns one blank card. -/
def oneCardSoup : Node :=
  .mk "" [] "" (fun _ => none) (fun _ => [blankNode]) (fun _ => none) (fun _ => none)

/-- A document whose every `select` call returns 25 card candidates. -/
def soup25 : Node :=
  .mk "" [] "" (fun _ => none) (fun _ => List.replicate 25 blankNode) (fun _ => none)
    (fun _ => none)

/-! ### General lemmas -/

theorem string_ne_empty_iff (s : String) : s ≠ "" ↔ s.data ≠ [] := by
  constructor
  · intro h hdata
    exact h (by cases s with | mk l => simp_all)
  · intro h hs
    exact h (by simp [hs])

theorem mk_ne_empty {l : List Char} (h : l ≠ []) : String.mk l ≠ "" := by
  rw [string_ne_empty_iff]
  exact h

theorem append_ne_empty_left (a b : String) (h : a ≠ "") : a ++ b ≠ "" := by
  rw [string_ne_empty_iff] at h ⊢
  cases a with
  | mk l =>
    cases b with
    | mk m =>
      show (String.mk (l ++ m)).data ≠ []
      simpa using fun hl _ => h (by simp [hl])

theorem strTake_ne_empty {s : String} (n : Nat) (hs : s ≠ "") (hn : 0 < n) :
    strTake s n ≠ "" := by
  rw [string_ne_empty_iff] at hs ⊢
  cases s with
  | mk l =>
    simp only [strTake]
    cases l with
    | nil => simp at hs
    | cons c cs =>
      cases n with
      | zero => omega
      | succ m => simp

theorem pyStartsWith_ne_empty {s pat : String} (hp : pat ≠ "")
    (h : pyStartsWith s pat = true) : s ≠ "" := by
  rw [string_ne_empty_iff] at hp ⊢
  intro hs
  unfold pyStartsWith at h
  rw [hs] at h
  cases hpat : pat.data with
  | nil => exact hp hpat
  | cons a as => rw [hpat] at h; simp [charsPre] at h

theorem extractCardsLoop_length (build : Node → Nat → TrendingProduct) :
    ∀ (l : List Node) (k : Nat), (extractCardsLoop build l k).length = l.length := by
  intro l
  induction l with
  | nil => intro k; rfl
  | cons item rest ih => intro k; simp [extractCardsLoop, ih]

theorem extractCardsLoop_get (build : Node → Nat → TrendingProduct) :
    ∀ (l : List Node) (k j : Nat) (h : j < (extractCardsLoop build l k).length)
      (h2 : j < l.length),
      (extractCardsLoop build l k).get ⟨j, h⟩ = build (l.get ⟨j, h2⟩) (k + j) := by
  intro l
  induction l with
  | nil => intro k j h h2; simp at h2
  | cons item rest ih =>
    intro k j h h2
    cases j with
    | zero => simp [extractCardsLoop]
    | succ m =>
      have hm : m < (extractCardsLoop build rest (k + 1)).length := by
        simpa [extractCardsLoop_length] using Nat.lt_of_succ_lt_succ h2
      have hm2 : m < rest.length := Nat.lt_of_succ_lt_succ h2
      calc (extractCardsLoop build (item :: rest) k).get ⟨m + 1, h⟩
          = (extractCardsLoop build rest (k + 1)).get ⟨m, hm⟩ := rfl
        _ = build (rest.get ⟨m, hm2⟩) (k + 1 + m) := ih (k + 1) m hm hm2
        _ = build ((item :: rest).get ⟨m + 1, h2⟩) (k + (m + 1)) := by
              rw [List.get_cons_succ]
              ring_nf

/-! ### C6: the numeric-price extractor -/

theorem keepNumeric_all (s : String) :
    (keepNumeric s).data.all (fun c => c.isDigit || c == '.') = true := by
  rw [List.all_eq_true]
  intro c hc
  have hmem : c ∈ s.data.filter (fun c => c.isDigit || c == '.') := hc
  exact (List.mem_filter.mp hmem).2

/-- C6: `extract_numeric` is the strip-then-parse composition; it returns
nothing — never raising — when the residual string is empty, has no digit, or
has more than one decimal point, and it yields a value whenever the residual
has a digit and at most one dot; in particular `"₹1,499.00" ↦ 1499` and
`"" ↦ none`.  `TrendingProduct.get_numeric_price` agrees with it on present
prices. -/
theorem C6_extract_numeric :
    (∀ s : String, extract_numeric s = pyFloatDigitsDots (keepNumeric s))
    ∧ (∀ s : String, keepNumeric s = "" → extract_numeric s = none)
    ∧ (∀ s : String, 2 ≤ (keepNumeric s).data.count '.' → extract_numeric s = none)
    ∧ (∀ s : String, ¬ (keepNumeric s).data.any Char.isDigit = true → extract_numeric s = none)
    ∧ (∀ s : String, (keepNumeric s).data.any Char.isDigit = true →
        (keepNumeric s).data.count '.' ≤ 1 → (extract_numeric s).isSome = true)
    ∧ extract_numeric "₹1,499.00" = some (1499 : ℚ)
    ∧ extract_numeric "" = none
    ∧ (∀ p : TrendingProduct, p.price = none → p.getNumericPrice = none)
    ∧ (∀ (p : TrendingProduct) (s : String), p.price = some s →
        p.getNumericPrice = extract_numeric s) := by
  have hcomp : ∀ s : String, extract_numeric s = pyFloatDigitsDots (keepNumeric s) := by
    intro s
    unfold extract_numeric
    by_cases hs : s = ""
    · subst hs; decide
    · simp [hs]
  have h1499 : extract_numeric "₹1,499.00" = some (1499 : ℚ) := by
    have hk : keepNumeric "₹1,499.00" = "1499.00" := by decide
    rw [hcomp, hk]
    simp only [pyFloatDigitsDots]
    rw [if_pos (by decide)]
    have ht : natOfDigits (("1499.00" : String).data.takeWhile (fun c => c ≠ '.')) = 1499 := by
      decide
    have hd1 : natOfDigits ((("1499.00" : String).data.dropWhile (fun c => c ≠ '.')).drop 1) = 0 := by
      decide
    have hd2 : ((("1499.00" : String).data.dropWhile (fun c => c ≠ '.')).drop 1).length = 2 := by
      decide
    rw [ht, hd1, hd2]
    norm_num
  refine ⟨hcomp, ?_, ?_, ?_, ?_, h1499, by decide, ?_, ?_⟩
  · intro s h
    rw [hcomp, h]
    decide
  · intro s h
    rw [hcomp]
    unfold pyFloatDigitsDots
    rw [if_neg]
    rintro ⟨-, -, hle⟩
    omega
  · intro s h
    rw [hcomp]
    unfold pyFloatDigitsDots
    rw [if_neg]
    rintro ⟨-, hany, -⟩
    exact h hany
  · intro s hd hdot
    rw [hcomp]
    unfold pyFloatDigitsDots
    rw [if_pos ⟨keepNumeric_all s, hd, hdot⟩]
    rfl
  · intro p h
    simp [TrendingProduct.getNumericPrice, h]
  · intro p s h
    simp only [TrendingProduct.getNumericPrice, h, extract_numeric]

/-- C6 witness: the multiple-decimal-points case at a concrete input. -/
theorem C6_extract_numeric_witness :
    (2 ≤ (keepNumeric "1.2.3").data.count '.') ∧ extract_numeric "1.2.3" = none :=
  ⟨by decide, C6_extract_numeric.2.2.1 "1.2.3" (by decide)⟩

/-! ### C9: `get_page` retries and backoff -/

theorem getPageLoop_congr {α : Type} (f g : Nat → Option α) (b : ℚ) (retry : Nat) :
    ∀ l : List Nat, (∀ a ∈ l, f a = g a) →
      getPageLoop f b retry l = getPageLoop g b retry l := by
  intro l
  induction l with
  | nil => intro _; rfl
  | cons a rest ih =>
    intro h
    have ha := h a (List.mem_cons_self a rest)
    have hrest := ih (fun x hx => h x (List.mem_cons_of_mem a hx))
    simp only [getPageLoop, ha, hrest]

theorem getPageLoop_allFail {α : Type} (f : Nat → Option α) (b : ℚ) (retry : Nat) :
    ∀ l : List Nat, (∀ a ∈ l, f a = none) →
      getPageLoop f b retry l =
        (none, (l.filter (fun a => decide (a < retry - 1))).map (fun a => b * 2 ^ a)) := by
  intro l
  induction l with
  | nil => intro _; rfl
  | cons a rest ih =>
    intro h
    have ha := h a (List.mem_cons_self a rest)
    have hrest := ih (fun x hx => h x (List.mem_cons_of_mem a hx))
    simp only [getPageLoop, ha, hrest, List.filter_cons]
    by_cases hlt : a < retry - 1
    · simp [hlt]
    · simp [hlt]

theorem getPageLoop_append {α : Type} (f : Nat → Option α) (b : ℚ) (retry : Nat)
    (l1 l2 : List Nat) (h : ∀ a ∈ l1, f a = none) :
    getPageLoop f b retry (l1 ++ l2) =
      ((getPageLoop f b retry l2).1,
        (l1.filter (fun a => decide (a < retry - 1))).map (fun a => b * 2 ^ a)
          ++ (getPageLoop f b retry l2).2) := by
  induction l1 with
  | nil => simp
  | cons a rest ih =>
    have ha := h a (List.mem_cons_self a rest)
    have hrest := ih (fun x hx => h x (List.mem_cons_of_mem a hx))
    simp only [List.cons_append, getPageLoop, ha, List.filter_cons]
    by_cases hlt : a < retry - 1
    · simp [hlt, hrest]
    · simp [hlt, hrest]

theorem filter_range_lt : ∀ (n m : Nat), m ≤ n →
    (List.range n).filter (fun a => decide (a < m)) = List.range m := by
  intro n
  induction n with
  | zero =>
    intro m hm
    have : m = 0 := Nat.le_zero.mp hm
    simp [this]
  | succ k ih =>
    intro m hm
    rcases Nat.lt_or_ge m (k + 1) with hlt | hge
    · have hmk : m ≤ k := Nat.lt_succ_iff.mp hlt
      rw [List.range_succ, List.filter_append, ih m hmk]
      have : ¬ k < m := by omega
      simp [this]
    · have hmk : m = k + 1 := Nat.le_antisymm hm hge
      subst hmk
      rw [List.range_succ, List.filter_append]
      have h1 : (List.range k).filter (fun a => decide (a < k + 1)) = List.range k := by
        rw [List.filter_eq_self]
        intro a ha
        have := List.mem_range.mp ha
        simpa using by omega
      rw [h1]
      have : k < k + 1 := Nat.lt_succ_self k
      simp [this, List.range_succ]

/-- C9: `get_page` consults the fetch oracle for at most `retry` attempts (its
outcome depends only on the first `retry` attempts); when every attempt fails
it returns `none` — not an exception — after recording the backoff delays
`backoff * 2 ^ attempt` for attempts `0 .. retry-2` (no sleep after the last
attempt); when attempt `k` is the first success it returns that response after
the delays for the `k` failed attempts before it. -/
theorem C9_get_page_retries {α : Type} (f g : Nat → Option α) (retry : Nat) (b : ℚ) :
    ((∀ i, i < retry → f i = g i) → getPage f retry b = getPage g retry b)
    ∧ ((∀ i, i < retry → f i = none) →
        getPage f retry b = (none, (List.range (retry - 1)).map (fun i => b * 2 ^ i)))
    ∧ (∀ (k : Nat) (r : α), k < retry → (∀ j, j < k → f j = none) → f k = some r →
        getPage f retry b = (some r, (List.range k).map (fun i => b * 2 ^ i))) := by
  refine ⟨?_, ?_, ?_⟩
  · intro h
    exact getPageLoop_congr f g b retry (List.range retry)
      (fun a ha => h a (List.mem_range.mp ha))
  · intro h
    rw [getPage, getPageLoop_allFail f b retry (List.range retry)
      (fun a ha => h a (List.mem_range.mp ha))]
    rw [filter_range_lt retry (retry - 1) (Nat.sub_le retry 1)]
  · intro k r hk hfail hsucc
    have hsplit : List.range retry = List.range k ++ (List.range (retry - k)).map (k + ·) := by
      conv_lhs => rw [show retry = k + (retry - k) by omega]
      rw [List.range_add]
    rw [getPage, hsplit, getPageLoop_append f b retry _ _
      (fun a ha => hfail a (List.mem_range.mp ha))]
    have hpos : retry - k = (retry - k - 1) + 1 := by omega
    rw [hpos, List.range_succ_eq_map]
    simp only [List.map_cons, getPageLoop, Nat.add_zero, hsucc]
    have hfilter : (List.range k).filter (fun a => decide (a < retry - 1)) = List.range k := by
      rw [List.filter_eq_self]
      intro a ha
      have := List.mem_range.mp ha
      simpa using by omega
    rw [hfilter]
    simp

/-- C9 witness: three failing attempts, backoff factor `1/2`: the result is
`none` with delays for attempts 0 and 1 only. -/
theorem C9_get_page_retries_witness :
    getPage (fun _ => (none : Option Nat)) 3 (1 / 2 : ℚ)
      = (none, (List.range 2).map (fun i => (1 / 2 : ℚ) * 2 ^ i)) :=
  (C9_get_page_retries (fun _ => (none : Option Nat)) (fun _ => none) 3 (1 / 2)).2.1
    (fun _ _ => rfl)

/-! ### C10: dict round-trip and unknown-key filtering -/

/-- C10: `from_dict ∘ to_dict` is the identity on the declared fields (for any
clock value `now`); `to_dict` emits exactly the declared field names in order,
so dynamically attached attributes such as `seller` and `discount_percentage`
never appear and never survive a save/load cycle; and `from_dict` ignores any
key outside the declared field set. -/
theorem C10_dict_round_trip :
    (∀ (o : PyObj) (now : String),
        TrendingProduct.fromDict now (PyObj.toDict o) = some o.fields)
    ∧ (∀ o : PyObj, (PyObj.toDict o).map Prod.fst = validFields)
    ∧ (∀ (now : String) (d : List (String × PyValue)) (k : String) (v : PyValue),
        k ∉ validFields →
        TrendingProduct.fromDict now ((k, v) :: d) = TrendingProduct.fromDict now d) := by
  refine ⟨?_, ?_, ?_⟩
  · intro o now
    rfl
  · intro o
    rfl
  · intro now d k v hk
    simp only [validFields, List.mem_cons, List.not_mem_nil, or_false, not_or] at hk
    obtain ⟨h1, h2, h3, h4, h5, h6, h7, h8, h9, h10, h11, h12, h13⟩ := hk
    simp only [TrendingProduct.fromDict, reqStr, optStrField, optRatField, optIntField,
      strListField, defStr, dictLookup, if_neg h1, if_neg h2, if_neg h3, if_neg h4,
      if_neg h5, if_neg h6, if_neg h7, if_neg h8, if_neg h9, if_neg h10, if_neg h11,
      if_neg h12, if_neg h13]

/-- C10 witness: the dynamically attached key `seller` is outside the declared
field set and is ignored by `from_dict`. -/
theorem C10_dict_round_trip_witness :
    ("seller" ∉ validFields)
    ∧ TrendingProduct.fromDict "2024-01-01" [("seller", PyValue.vStr "X")]
        = TrendingProduct.fromDict "2024-01-01" [] :=
  ⟨by decide, C10_dict_round_trip.2.2 "2024-01-01" [] "seller" (PyValue.vStr "X") (by decide)⟩

/-! ### C5: pipeline fallback ordering -/

theorem getTrendingLoop_skip (extract : String → List TrendingProduct)
    (home : List TrendingProduct) :
    ∀ (l1 : List String) (p : String) (l2 : List String),
      (∀ q ∈ l1, extract q = []) → extract p ≠ [] →
      getTrendingLoop extract home (l1 ++ p :: l2) = extract p := by
  intro l1
  induction l1 with
  | nil =>
    intro p l2 _ hp
    simp only [List.nil_append, getTrendingLoop]
    rw [if_neg (by simpa [List.isEmpty_iff] using hp)]
  | cons q rest ih =>
    intro p l2 h hp
    have hq := h q (List.mem_cons_self q rest)
    simp only [List.cons_append, getTrendingLoop, hq]
    rw [if_pos (by simp)]
    exact ih p l2 (fun x hx => h x (List.mem_cons_of_mem q hx)) hp

theorem getTrendingLoop_exhaust (extract : String → List TrendingProduct)
    (home : List TrendingProduct) :
    ∀ l : List String, (∀ q ∈ l, extract q = []) →
      getTrendingLoop extract home l = home := by
  intro l
  induction l with
  | nil => intro _; rfl
  | cons q rest ih =>
    intro h
    have hq := h q (List.mem_cons_self q rest)
    simp only [getTrendingLoop, hq]
    rw [if_pos (by simp)]
    exact ih (fun x hx => h x (List.mem_cons_of_mem q hx))

/-- C5: listing pages are tried in configured order; the result is the record
list of the first listing page producing at least one record (so a later tier,
including the homepage, never supersedes it), and the homepage tier's outcome
is the result only when every listing page produced zero records.  Stated for
both site adapters. -/
theorem C5_fallback_ordering (base : String) (fetch : String → PageOutcome) :
    (∀ (pages1 : List String) (p : String) (pages2 : List String),
      (∀ q ∈ pages1, darazExtractFromPage base (fetch q) = []) →
      darazExtractFromPage base (fetch p) ≠ [] →
      darazGetTrending base fetch (pages1 ++ p :: pages2) = darazExtractFromPage base (fetch p))
    ∧ (∀ pages : List String,
      (∀ q ∈ pages, darazExtractFromPage base (fetch q) = []) →
      darazGetTrending base fetch pages = darazHomepageProducts base (fetch "/"))
    ∧ (∀ (pages1 : List String) (p : String) (pages2 : List String),
      (∀ q ∈ pages1, amazonExtractFromPage base (fetch q) = []) →
      amazonExtractFromPage base (fetch p) ≠ [] →
      amazonGetTrending base fetch (pages1 ++ p :: pages2) = amazonExtractFromPage base (fetch p))
    ∧ (∀ pages : List String,
      (∀ q ∈ pages, amazonExtractFromPage base (fetch q) = []) →
      amazonGetTrending base fetch pages = amazonHomepageProducts base (fetch "/")) :=
  ⟨fun l1 p l2 h hp => getTrendingLoop_skip _ _ l1 p l2 h hp,
   fun l h => getTrendingLoop_exhaust _ _ l h,
   fun l1 p l2 h hp => getTrendingLoop_skip _ _ l1 p l2 h hp,
   fun l h => getTrendingLoop_exhaust _ _ l h⟩

/-- A fetch oracle for the C5 witness: page `/p2` parses with one card,
everything else fails to fetch. -/
def c5Fetch : String → PageOutcome :=
  fun p => if p = "/p2" then .page oneCardSoup else .fetchFail

/-- C5 witness: with `/p1` empty and `/p2` producing a record, the pipeline
returns `/p2`'s records. -/
theorem C5_fallback_ordering_witness :
    darazGetTrending "https://www.daraz.com.np" c5Fetch (["/p1"] ++ "/p2" :: ["/p3"])
      = darazExtractFromPage "https://www.daraz.com.np" (c5Fetch "/p2") :=
  (C5_fallback_ordering "https://www.daraz.com.np" c5Fetch).1 ["/p1"] "/p2" ["/p3"]
    (by decide) (by decide)

/-! ### C7: card caps -/

/-- C7: the capped card collections hold at most 20 (listing) and 10
(homepage) cards; 25 candidates are cut to exactly 20 and 10; and the capped
collection is an in-order selection of the located cards (element `j` of the
capped list is element `j` of the full card list).  Stated for both site
adapters. -/
theorem C7_card_caps (soup : Node) :
    ((darazListingCapped soup).length ≤ 20
      ∧ (darazHomeCapped soup).length ≤ 10
      ∧ (amazonListingCapped soup).length ≤ 20
      ∧ (amazonHomeCapped soup).length ≤ 10)
    ∧ (((darazCards soup).length = 25 → (darazListingCapped soup).length = 20)
      ∧ ((darazHomeCards soup).length = 25 → (darazHomeCapped soup).length = 10)
      ∧ ((amazonCards soup).length = 25 → (amazonListingCapped soup).length = 20)
      ∧ ((amazonHomeCards soup).length = 25 → (amazonHomeCapped soup).length = 10))
    ∧ ((∀ (j : Nat) (h : j < (darazListingCapped soup).length)
          (h2 : j < (darazCards soup).length),
          (darazListingCapped soup).get ⟨j, h⟩ = (darazCards soup).get ⟨j, h2⟩)
      ∧ (∀ (j : Nat) (h : j < (darazHomeCapped soup).length)
          (h2 : j < (darazHomeCards soup).length),
          (darazHomeCapped soup).get ⟨j, h⟩ = (darazHomeCards soup).get ⟨j, h2⟩)
      ∧ (∀ (j : Nat) (h : j < (amazonListingCapped soup).length)
          (h2 : j < (amazonCards soup).length),
          (amazonListingCapped soup).get ⟨j, h⟩ = (amazonCards soup).get ⟨j, h2⟩)
      ∧ (∀ (j : Nat) (h : j < (amazonHomeCapped soup).length)
          (h2 : j < (amazonHomeCards soup).length),
          (amazonHomeCapped soup).get ⟨j, h⟩ = (amazonHomeCards soup).get ⟨j, h2⟩)) := by
  refine ⟨⟨?_, ?_, ?_, ?_⟩, ⟨?_, ?_, ?_, ?_⟩, ⟨?_, ?_, ?_, ?_⟩⟩
  · simp [darazListingCapped, List.length_take]
  · simp [darazHomeCapped, List.length_take]
  · simp [amazonListingCapped, List.length_take]
  · simp [amazonHomeCapped, List.length_take]
  · intro h; simp [darazListingCapped, List.length_take, h]
  · intro h; simp [darazHomeCapped, List.length_take, h]
  · intro h; simp [amazonListingCapped, List.length_take, h]
  · intro h; simp [amazonHomeCapped, List.length_take, h]
  · intro j h h2; simp [darazListingCapped, List.get_eq_getElem, List.getElem_take]
  · intro j h h2; simp [darazHomeCapped, List.get_eq_getElem, List.getElem_take]
  · intro j h h2; simp [amazonListingCapped, List.get_eq_getElem, List.getElem_take]
  · intro j h h2; simp [amazonHomeCapped, List.get_eq_getElem, List.getElem_take]

/-- C7 witness: a document with 25 card candidates is capped to 20 on a
listing page and 10 on the homepage. -/
theorem C7_card_caps_witness :
    (darazListingCapped soup25).length = 20 ∧ (darazHomeCapped soup25).length = 10 :=
  ⟨(C7_card_caps soup25).2.1.1 (by decide), (C7_card_caps soup25).2.1.2.1 (by decide)⟩

/-! ### C8: the `source` field -/

/-- C8: Daraz homepage-fallback records carry `"daraz.np_homepage"` and the
Daraz sentinel carries `"daraz.np_not_found"` — but every Daraz listing-page
record keeps the dataclass default `source = "amazon.in"` (the constructor call
in `_extract_products_from_page` passes no `source`), so listing records do
not carry the Daraz site identifier; Amazon listing records do carry
`"amazon.in"`. -/
theorem C8_source_field :
    (∀ (base : String) (soup item : Node) (i : Nat),
        (darazExtractCard base soup item i).source = "amazon.in")
    ∧ (∀ (base : String) (soup item : Node) (i : Nat),
        (amazonExtractCard base soup item i).source = "amazon.in")
    ∧ (∀ (base : String) (item : Node) (i : Nat),
        (darazHomeCard base item i).source = "daraz.np_homepage")
    ∧ (∀ (base : String) (item : Node) (i : Nat),
        (amazonHomeCard base item i).source = "amazon.in_homepage")
    ∧ darazSentinel.source = "daraz.np_not_found"
    ∧ amazonSentinel.source = "amazon.in_not_found"
    ∧ pyEndsWith "daraz.np_homepage" "_homepage" = true
    ∧ pyEndsWith "daraz.np_not_found" "_not_found" = true
    ∧ ("amazon.in" : String) ≠ "daraz.np" :=
  ⟨fun _ _ _ _ => rfl, fun _ _ _ _ => rfl, fun _ _ _ => rfl, fun _ _ _ => rfl,
   rfl, rfl, by decide, by decide, by decide⟩

/-! ### C1: no card is dropped; title, url, rank always populated -/

theorem listingTitle_ne_empty (titleSel : String) (item : Node) (ident : Option String)
    (i : Nat) : listingTitle titleSel item ident i ≠ "" := by
  simp only [listingTitle]
  split
  · assumption
  · split
    · exact strTake_ne_empty 100 (by assumption) (by omega)
    · exact append_ne_empty_left _ _ (by decide)

theorem listingUrl_ne_empty (base_url : String) (item : Node) (fallback : String)
    (hb : base_url ≠ "") (hf : fallback ≠ "") : listingUrl base_url item fallback ≠ "" := by
  rcases hsel : item.selectOne "a[href]" with - | link
  · simp only [listingUrl, hsel]
    exact hf
  · rcases hattr : link.getAttr "href" with - | href
    · simp only [listingUrl, hsel, hattr]
      exact hf
    · simp only [listingUrl, hsel, hattr]
      by_cases hs : pyStartsWith href "http" = true
      · rw [if_pos hs]
        exact pyStartsWith_ne_empty (show ("http" : String) ≠ "" by decide) hs
      · rw [if_neg hs]
        exact append_ne_empty_left _ _ hb

theorem darazUrlFallback_ne_empty (base_url : String) (pid : Option String)
    (hb : base_url ≠ "") : darazUrlFallback base_url pid ≠ "" := by
  cases pid with
  | none => exact append_ne_empty_left _ _ hb
  | some s =>
    show (if s ≠ "" then base_url ++ "/products/" ++ s else base_url ++ "/trending-products/") ≠ ""
    by_cases hs : s = ""
    · rw [if_neg (fun hcon => hcon hs)]
      exact append_ne_empty_left _ _ hb
    · rw [if_pos hs]
      exact append_ne_empty_left _ _ (append_ne_empty_left _ _ hb)

theorem amazonUrlFallback_ne_empty (base_url : String) (asin : Option String)
    (hb : base_url ≠ "") : amazonUrlFallback base_url asin ≠ "" := by
  unfold amazonUrlFallback
  by_cases hs : pyTruthyOptStr asin = true
  · rw [if_pos hs]
    exact append_ne_empty_left _ _ (append_ne_empty_left _ _ hb)
  · rw [if_neg hs]
    exact append_ne_empty_left _ _ hb

theorem extractCardsLoop_getElem? (build : Node → Nat → TrendingProduct) :
    ∀ (l : List Node) (k j : Nat),
      (extractCardsLoop build l k)[j]? = (l[j]?).map (fun item => build item (k + j)) := by
  intro l
  induction l with
  | nil => intro k j; simp [extractCardsLoop]
  | cons item rest ih =>
    intro k j
    cases j with
    | zero => simp [extractCardsLoop]
    | succ m =>
      simp only [extractCardsLoop, List.getElem?_cons_succ, ih (k + 1) m]
      congr 1
      funext x
      congr 1
      omega

/-- C1: on any parsed listing page, every card in the capped card list yields
exactly one record (the lengths agree — a field-level miss never drops a
card, and every card node is universally quantified, covering cards whose
price, rating, review-count, image and category extraction all miss), and
each record has a non-empty title, a non-empty url, and `rank = j + 1` for the
card's 0-based position `j`.  Stated for both site adapters. -/
theorem C1_no_card_dropped (base : String) (hbase : base ≠ "") (soup : Node) :
    ((darazPageProducts base soup).length = (darazListingCapped soup).length
      ∧ ∀ (j : Nat) (p : TrendingProduct),
          (darazPageProducts base soup)[j]? = some p →
          p.title ≠ "" ∧ p.url ≠ "" ∧ p.rank = some ((j : ℤ) + 1))
    ∧ ((amazonPageProducts base soup).length = (amazonListingCapped soup).length
      ∧ ∀ (j : Nat) (p : TrendingProduct),
          (amazonPageProducts base soup)[j]? = some p →
          p.title ≠ "" ∧ p.url ≠ "" ∧ p.rank = some ((j : ℤ) + 1)) := by
  constructor
  · constructor
    · exact extractCardsLoop_length _ (darazListingCapped soup) 0
    · intro j p hp
      have hp' : ((darazListingCapped soup)[j]?).map
          (fun item => darazExtractCard base soup item (0 + j)) = some p := by
        rw [← extractCardsLoop_getElem?]
        exact hp
      obtain ⟨item, -, rfl⟩ := Option.map_eq_some'.mp hp'
      refine ⟨listingTitle_ne_empty _ _ _ _,
        listingUrl_ne_empty _ _ _ hbase (darazUrlFallback_ne_empty _ _ hbase), ?_⟩
      show some ((((0 + j : Nat)) : ℤ) + 1) = some ((j : ℤ) + 1)
      simp
  · constructor
    · exact extractCardsLoop_length _ (amazonListingCapped soup) 0
    · intro j p hp
      have hp' : ((amazonListingCapped soup)[j]?).map
          (fun item => amazonExtractCard base soup item (0 + j)) = some p := by
        rw [← extractCardsLoop_getElem?]
        exact hp
      obtain ⟨item, -, rfl⟩ := Option.map_eq_some'.mp hp'
      refine ⟨listingTitle_ne_empty _ _ _ _,
        listingUrl_ne_empty _ _ _ hbase (amazonUrlFallback_ne_empty _ _ hbase), ?_⟩
      show some ((((0 + j : Nat)) : ℤ) + 1) = some ((j : ℤ) + 1)
      simp

/-- The single record extracted from `oneCardSoup` by the Daraz adapter. -/
def c1Rec : TrendingProduct :=
  darazExtractCard "https://www.daraz.com.np" oneCardSoup blankNode 0

/-- C1 witness: a concrete one-card page whose card misses every field query
still yields a record with non-empty title and url and rank 1. -/
theorem C1_no_card_dropped_witness :
    (darazPageProducts "https://www.daraz.com.np" oneCardSoup)[0]? = some c1Rec
    ∧ c1Rec.title ≠ "" ∧ c1Rec.url ≠ "" ∧ c1Rec.rank = some ((0 : ℤ) + 1) := by
  have h := (C1_no_card_dropped "https://www.daraz.com.np" (by decide) oneCardSoup).1.2 0 c1Rec
    (by decide)
  exact ⟨by decide, h.1, h.2.1, h.2.2⟩

/-! ### C2: pipeline exhaustion and the sentinel record -/

/-- C2 counterexample: a run in which every tier produces zero cards because
every fetch (listing pages and homepage alike) returns nothing.  The claim
says the result is exactly one sentinel record and never an empty sequence;
both pipelines return the empty sequence. -/
theorem C2_counterexample :
    darazGetTrending "https://www.daraz.com.np" (fun _ => PageOutcome.fetchFail)
        darazDefaultPages = []
    ∧ amazonGetTrending "https://www.amazon.in" (fun _ => PageOutcome.fetchFail)
        amazonDefaultPages = [] :=
  ⟨rfl, rfl⟩

/-- C2 amended: when every listing page yields zero records and the homepage
fetch-and-parse succeeds but yields zero cards, the pipeline returns exactly
the one sentinel record, whose `source` ends in `"_not_found"`; but when the
homepage fetch or parse fails, the pipeline returns the empty sequence
instead.  Stated for both site adapters. -/
theorem C2_exhaustion_sentinel (base : String) (fetch : String → PageOutcome)
    (pages : List String) :
    ((∀ p ∈ pages, darazExtractFromPage base (fetch p) = []) →
      (∀ soup : Node, fetch "/" = .page soup → darazHomeCards soup = [] →
          darazGetTrending base fetch pages = [darazSentinel]
          ∧ pyEndsWith darazSentinel.source "_not_found" = true)
      ∧ ((fetch "/" = .fetchFail ∨ fetch "/" = .parseFail) →
          darazGetTrending base fetch pages = []))
    ∧ ((∀ p ∈ pages, amazonExtractFromPage base (fetch p) = []) →
      (∀ soup : Node, fetch "/" = .page soup → amazonHomeCards soup = [] →
          amazonGetTrending base fetch pages = [amazonSentinel]
          ∧ pyEndsWith amazonSentinel.source "_not_found" = true)
      ∧ ((fetch "/" = .fetchFail ∨ fetch "/" = .parseFail) →
          amazonGetTrending base fetch pages = [])) := by
  constructor
  · intro hpages
    have hloop : darazGetTrending base fetch pages
        = darazHomepageProducts base (fetch "/") :=
      getTrendingLoop_exhaust _ _ pages hpages
    constructor
    · intro soup hsoup hcards
      rw [hloop, hsoup]
      constructor
      · simp [darazHomepageProducts, darazHomeCapped, hcards, extractCardsLoop]
      · decide
    · rintro (h | h) <;> rw [hloop, h] <;> rfl
  · intro hpages
    have hloop : amazonGetTrending base fetch pages
        = amazonHomepageProducts base (fetch "/") :=
      getTrendingLoop_exhaust _ _ pages hpages
    constructor
    · intro soup hsoup hcards
      rw [hloop, hsoup]
      constructor
      · simp [amazonHomepageProducts, amazonHomeCapped, hcards, extractCardsLoop]
      · decide
    · rintro (h | h) <;> rw [hloop, h] <;> rfl

/-- A fetch oracle for the C2 witness: the homepage parses to a document with
no cards, every listing page fails to fetch. -/
def c2Fetch : String → PageOutcome :=
  fun p => if p = "/" then .page blankNode else .fetchFail

/-- C2 witness: all listing pages empty and an empty parsed homepage yield
exactly the sentinel. -/
theorem C2_exhaustion_sentinel_witness :
    darazGetTrending "https://www.daraz.com.np" c2Fetch darazDefaultPages = [darazSentinel]
    ∧ pyEndsWith darazSentinel.source "_not_found" = true :=
  ((C2_exhaustion_sentinel "https://www.daraz.com.np" c2Fetch darazDefaultPages).1
    (by decide)).1 blankNode rfl rfl

/-! ### C3: enrichment overwrite behaviour -/

theorem detailDescStage_keeps (descSel : String) (soup : Node) (p : TrendingProduct) :
    (detailDescStage descSel soup p).title = p.title
    ∧ (detailDescStage descSel soup p).url = p.url
    ∧ (detailDescStage descSel soup p).price = p.price
    ∧ (detailDescStage descSel soup p).rating = p.rating
    ∧ (detailDescStage descSel soup p).review_count = p.review_count
    ∧ (detailDescStage descSel soup p).image_url = p.image_url
    ∧ (detailDescStage descSel soup p).rank = p.rank
    ∧ (detailDescStage descSel soup p).source = p.source
    ∧ (detailDescStage descSel soup p).extracted_at = p.extracted_at
    ∧ (detailDescStage descSel soup p).category = p.category
    ∧ (detailDescStage descSel soup p).availability = p.availability
    ∧ (detailDescStage descSel soup p).features = p.features := by
  unfold detailDescStage
  cases soup.selectOne descSel <;>
    exact ⟨rfl, rfl, rfl, rfl, rfl, rfl, rfl, rfl, rfl, rfl, rfl, rfl⟩

theorem detailFeatStage_keeps (features : List String) (p : TrendingProduct) :
    (detailFeatStage features p).title = p.title
    ∧ (detailFeatStage features p).url = p.url
    ∧ (detailFeatStage features p).price = p.price
    ∧ (detailFeatStage features p).rating = p.rating
    ∧ (detailFeatStage features p).review_count = p.review_count
    ∧ (detailFeatStage features p).image_url = p.image_url
    ∧ (detailFeatStage features p).rank = p.rank
    ∧ (detailFeatStage features p).source = p.source
    ∧ (detailFeatStage features p).extracted_at = p.extracted_at
    ∧ (detailFeatStage features p).category = p.category
    ∧ (detailFeatStage features p).availability = p.availability
    ∧ (detailFeatStage features p).description = p.description := by
  unfold detailFeatStage
  split <;> exact ⟨rfl, rfl, rfl, rfl, rfl, rfl, rfl, rfl, rfl, rfl, rfl, rfl⟩

theorem detailAvailStage_keeps (availSel : String) (soup : Node) (p : TrendingProduct) :
    (detailAvailStage availSel soup p).title = p.title
    ∧ (detailAvailStage availSel soup p).url = p.url
    ∧ (detailAvailStage availSel soup p).price = p.price
    ∧ (detailAvailStage availSel soup p).rating = p.rating
    ∧ (detailAvailStage availSel soup p).review_count = p.review_count
    ∧ (detailAvailStage availSel soup p).image_url = p.image_url
    ∧ (detailAvailStage availSel soup p).rank = p.rank
    ∧ (detailAvailStage availSel soup p).source = p.source
    ∧ (detailAvailStage availSel soup p).extracted_at = p.extracted_at
    ∧ (detailAvailStage availSel soup p).category = p.category
    ∧ (detailAvailStage availSel soup p).description = p.description
    ∧ (detailAvailStage availSel soup p).features = p.features := by
  unfold detailAvailStage
  cases soup.selectOne availSel <;>
    exact ⟨rfl, rfl, rfl, rfl, rfl, rfl, rfl, rfl, rfl, rfl, rfl, rfl⟩

theorem detailCatStage_keeps (bcSel linkSel : String) (soup : Node) (p : TrendingProduct) :
    (detailCatStage bcSel linkSel soup p).title = p.title
    ∧ (detailCatStage bcSel linkSel soup p).url = p.url
    ∧ (detailCatStage bcSel linkSel soup p).price = p.price
    ∧ (detailCatStage bcSel linkSel soup p).rating = p.rating
    ∧ (detailCatStage bcSel linkSel soup p).review_count = p.review_count
    ∧ (detailCatStage bcSel linkSel soup p).image_url = p.image_url
    ∧ (detailCatStage bcSel linkSel soup p).rank = p.rank
    ∧ (detailCatStage bcSel linkSel soup p).source = p.source
    ∧ (detailCatStage bcSel linkSel soup p).extracted_at = p.extracted_at
    ∧ (detailCatStage bcSel linkSel soup p).availability = p.availability
    ∧ (detailCatStage bcSel linkSel soup p).description = p.description
    ∧ (detailCatStage bcSel linkSel soup p).features = p.features := by
  unfold detailCatStage
  split
  · exact ⟨rfl, rfl, rfl, rfl, rfl, rfl, rfl, rfl, rfl, rfl, rfl, rfl⟩
  · cases categoryFromBreadcrumb soup bcSel linkSel <;>
      exact ⟨rfl, rfl, rfl, rfl, rfl, rfl, rfl, rfl, rfl, rfl, rfl, rfl⟩

theorem detailDescStage_none (descSel : String) (soup : Node) (p : TrendingProduct)
    (h : soup.selectOne descSel = none) : detailDescStage descSel soup p = p := by
  simp only [detailDescStage, h]

theorem detailDescStage_hit (descSel : String) (soup : Node) (p : TrendingProduct)
    (e : Node) (h : soup.selectOne descSel = some e) :
    (detailDescStage descSel soup p).description = some (strTake e.text.pyStrip 500) := by
  simp only [detailDescStage, h]

theorem detailFeatStage_empty (p : TrendingProduct) : detailFeatStage [] p = p := by
  simp [detailFeatStage]

theorem detailFeatStage_cons (f : String) (fs : List String) (p : TrendingProduct) :
    (detailFeatStage (f :: fs) p).features = f :: fs := by
  simp [detailFeatStage]

theorem detailAvailStage_none (availSel : String) (soup : Node) (p : TrendingProduct)
    (h : soup.selectOne availSel = none) : detailAvailStage availSel soup p = p := by
  simp only [detailAvailStage, h]

theorem detailAvailStage_hit (availSel : String) (soup : Node) (p : TrendingProduct)
    (e : Node) (h : soup.selectOne availSel = some e) :
    (detailAvailStage availSel soup p).availability = some e.text.pyStrip := by
  simp only [detailAvailStage, h]

theorem detailCatStage_truthy (bcSel linkSel : String) (soup : Node) (p : TrendingProduct)
    (h : pyTruthyOptStr p.category = true) : detailCatStage bcSel linkSel soup p = p := by
  simp only [detailCatStage, h, if_true]

theorem sellerStage_fields (soup : Node) (o : PyObj) :
    (sellerStage soup o).fields = o.fields := by
  unfold sellerStage
  cases soup.selectOne ".seller-name, .pdp-seller-info-name" <;> rfl

theorem discountStage_fields (soup : Node) (o : PyObj) :
    (discountStage soup o).fields = o.fields := by
  rcases h : soup.selectOne ".pdp-product-price__discount, .discount-percentage" with - | e
  · simp only [discountStage, h]
  · rcases h2 : firstIntPercent e.text.pyStrip with - | n <;>
      simp only [discountStage, h, h2, PyObj.setExtra]

theorem darazDetailExtras_fields (soup : Node) (o : PyObj) :
    (darazDetailExtras soup o).fields = o.fields := by
  unfold darazDetailExtras
  rw [discountStage_fields, sellerStage_fields]

theorem darazDetailsBody_fields (soup : Node) (product : PyObj) :
    (darazDetailsBody soup product).fields =
      detailCatStage ".c1nVRb, .ant-breadcrumb, .pdp-breadcrumb" "a, span" soup
        (detailAvailStage ".quantity-content, .pdp-stock" soup
          (detailFeatStage (darazDetailFeatures soup)
            (detailDescStage ".html-content, .pdp-product-desc, .pdp-mod-description" soup
              product.fields))) := by
  unfold darazDetailsBody
  rw [darazDetailExtras_fields]

/-- A detail page whose description selector hits a node with fresh text and
every other query misses. -/
def c3DescNode : Node :=
  .mk "div" [] "A new detail description" (fun _ => none) (fun _ => []) (fun _ => none)
    (fun _ => none)

/-- Detail-page document for the C3 counterexample. -/
def c3Soup : Node :=
  .mk "html" [] ""
    (fun sel =>
      if sel = ".html-content, .pdp-product-desc, .pdp-mod-description" then some c3DescNode
      else none)
    (fun _ => []) (fun _ => none) (fun _ => none)

/-- A record that already carries a non-empty description. -/
def c3Product : PyObj :=
  ⟨{ title := "T", url := "U", description := some "old description" }, []⟩

/-- C3 counterexample: a record whose description is already non-empty, and a
successful detail fetch whose page yields a description — `get_product_details`
replaces the existing non-empty description instead of keeping it, refuting the
claim that enrichment only adds to empty fields. -/
theorem C3_counterexample :
    c3Product.fields.description = some "old description"
    ∧ (darazDetails (.page c3Soup) c3Product).fields.description
        = some "A new detail description"
    ∧ (darazDetails (.page c3Soup) c3Product).fields.description
        ≠ c3Product.fields.description :=
  ⟨rfl, by decide, by decide⟩

/-- C3 amended: when the detail-page fetch (or parse) fails the record is
returned entirely unchanged; on a successful parse, enrichment touches only
description, features, availability and category (plus Daraz's attached
seller/discount attributes): description, features and availability are
preserved exactly when their detail-page extraction misses — and overwritten,
even if previously non-empty, when it hits — while a non-empty category is
never overwritten.  All other fields are always unchanged.  Stated for both
site adapters. -/
theorem C3_enrichment_rules (soup : Node) (p : PyObj) (q : TrendingProduct) :
    (darazDetails .fetchFail p = p)
    ∧ (darazDetails .parseFail p = p)
    ∧ (amazonDetails .fetchFail q = q)
    ∧ (amazonDetails .parseFail q = q)
    ∧ (soup.selectOne ".html-content, .pdp-product-desc, .pdp-mod-description" = none →
        (darazDetails (.page soup) p).fields.description = p.fields.description)
    ∧ (darazDetailFeatures soup = [] →
        (darazDetails (.page soup) p).fields.features = p.fields.features)
    ∧ (soup.selectOne ".quantity-content, .pdp-stock" = none →
        (darazDetails (.page soup) p).fields.availability = p.fields.availability)
    ∧ (pyTruthyOptStr p.fields.category = true →
        (darazDetails (.page soup) p).fields.category = p.fields.category)
    ∧ ((darazDetails (.page soup) p).fields.title = p.fields.title
       ∧ (darazDetails (.page soup) p).fields.url = p.fields.url
       ∧ (darazDetails (.page soup) p).fields.price = p.fields.price
       ∧ (darazDetails (.page soup) p).fields.rating = p.fields.rating
       ∧ (darazDetails (.page soup) p).fields.review_count = p.fields.review_count
       ∧ (darazDetails (.page soup) p).fields.image_url = p.fields.image_url
       ∧ (darazDetails (.page soup) p).fields.rank = p.fields.rank
       ∧ (darazDetails (.page soup) p).fields.source = p.fields.source
       ∧ (darazDetails (.page soup) p).fields.extracted_at = p.fields.extracted_at)
    ∧ (soup.selectOne "#productDescription, #feature-bullets, #aplus" = none →
        (amazonDetails (.page soup) q).description = q.description)
    ∧ (amazonDetailFeatures soup = [] →
        (amazonDetails (.page soup) q).features = q.features)
    ∧ (soup.selectOne "#availability, #outOfStock" = none →
        (amazonDetails (.page soup) q).availability = q.availability)
    ∧ (pyTruthyOptStr q.category = true →
        (amazonDetails (.page soup) q).category = q.category)
    ∧ ((amazonDetails (.page soup) q).title = q.title
       ∧ (amazonDetails (.page soup) q).url = q.url
       ∧ (amazonDetails (.page soup) q).price = q.price
       ∧ (amazonDetails (.page soup) q).rating = q.rating
       ∧ (amazonDetails (.page soup) q).review_count = q.review_count
       ∧ (amazonDetails (.page soup) q).image_url = q.image_url
       ∧ (amazonDetails (.page soup) q).rank = q.rank
       ∧ (amazonDetails (.page soup) q).source = q.source
       ∧ (amazonDetails (.page soup) q).extracted_at = q.extracted_at) := by
  have hD : (darazDetails (PageOutcome.page soup) p).fields =
      detailCatStage ".c1nVRb, .ant-breadcrumb, .pdp-breadcrumb" "a, span" soup
        (detailAvailStage ".quantity-content, .pdp-stock" soup
          (detailFeatStage (darazDetailFeatures soup)
            (detailDescStage ".html-content, .pdp-product-desc, .pdp-mod-description" soup
              p.fields))) := darazDetailsBody_fields soup p
  have hA : amazonDetails (PageOutcome.page soup) q =
      detailCatStage "#wayfinding-breadcrumbs_feature_div" "a" soup
        (detailAvailStage "#availability, #outOfStock" soup
          (detailFeatStage (amazonDetailFeatures soup)
            (detailDescStage "#productDescription, #feature-bullets, #aplus" soup q))) := rfl
  obtain ⟨c1, c2, c3, c4, c5, c6, c7, c8, c9, c10, c11, c12⟩ :=
    detailCatStage_keeps ".c1nVRb, .ant-breadcrumb, .pdp-breadcrumb" "a, span" soup
      (detailAvailStage ".quantity-content, .pdp-stock" soup
        (detailFeatStage (darazDetailFeatures soup)
          (detailDescStage ".html-content, .pdp-product-desc, .pdp-mod-description" soup
            p.fields)))
  obtain ⟨a1, a2, a3, a4, a5, a6, a7, a8, a9, a10, a11, a12⟩ :=
    detailAvailStage_keeps ".quantity-content, .pdp-stock" soup
      (detailFeatStage (darazDetailFeatures soup)
        (detailDescStage ".html-content, .pdp-product-desc, .pdp-mod-description" soup
          p.fields))
  obtain ⟨f1, f2, f3, f4, f5, f6, f7, f8, f9, f10, f11, f12⟩ :=
    detailFeatStage_keeps (darazDetailFeatures soup)
      (detailDescStage ".html-content, .pdp-product-desc, .pdp-mod-description" soup p.fields)
  obtain ⟨d1, d2, d3, d4, d5, d6, d7, d8, d9, d10, d11, d12⟩ :=
    detailDescStage_keeps ".html-content, .pdp-product-desc, .pdp-mod-description" soup p.fields
  obtain ⟨C1, C2, C3, C4, C5, C6, C7, C8, C9, C10, C11, C12⟩ :=
    detailCatStage_keeps "#wayfinding-breadcrumbs_feature_div" "a" soup
      (detailAvailStage "#availability, #outOfStock" soup
        (detailFeatStage (amazonDetailFeatures soup)
          (detailDescStage "#productDescription, #feature-bullets, #aplus" soup q)))
  obtain ⟨A1, A2, A3, A4, A5, A6, A7, A8, A9, A10, A11, A12⟩ :=
    detailAvailStage_keeps "#availability, #outOfStock" soup
      (detailFeatStage (amazonDetailFeatures soup)
        (detailDescStage "#productDescription, #feature-bullets, #aplus" soup q))
  obtain ⟨F1, F2, F3, F4, F5, F6, F7, F8, F9, F10, F11, F12⟩ :=
    detailFeatStage_keeps (amazonDetailFeatures soup)
      (detailDescStage "#productDescription, #feature-bullets, #aplus" soup q)
  obtain ⟨D1, D2, D3, D4, D5, D6, D7, D8, D9, D10, D11, D12⟩ :=
    detailDescStage_keeps "#productDescription, #feature-bullets, #aplus" soup q
  refine ⟨rfl, rfl, rfl, rfl, ?_, ?_, ?_, ?_, ?_, ?_, ?_, ?_, ?_, ?_⟩
  · intro h
    rw [hD, c11, a11, f12, detailDescStage_none _ _ _ h]
  · intro h
    rw [hD, c12, a12, h, detailFeatStage_empty, d12]
  · intro h
    rw [hD, c10, detailAvailStage_none _ _ _ h, f11, d11]
  · intro h
    have hcat : (detailAvailStage ".quantity-content, .pdp-stock" soup
        (detailFeatStage (darazDetailFeatures soup)
          (detailDescStage ".html-content, .pdp-product-desc, .pdp-mod-description" soup
            p.fields))).category = p.fields.category := by
      rw [a10, f10, d10]
    rw [hD, detailCatStage_truthy _ _ _ _ (by rw [hcat]; exact h), hcat]
  · exact ⟨by rw [hD, c1, a1, f1, d1], by rw [hD, c2, a2, f2, d2], by rw [hD, c3, a3, f3, d3],
      by rw [hD, c4, a4, f4, d4], by rw [hD, c5, a5, f5, d5], by rw [hD, c6, a6, f6, d6],
      by rw [hD, c7, a7, f7, d7], by rw [hD, c8, a8, f8, d8], by rw [hD, c9, a9, f9, d9]⟩
  · intro h
    rw [hA, C11, A11, F12, detailDescStage_none _ _ _ h]
  · intro h
    rw [hA, C12, A12, h, detailFeatStage_empty, D12]
  · intro h
    rw [hA, C10, detailAvailStage_none _ _ _ h, F11, D11]
  · intro h
    have hcat : (detailAvailStage "#availability, #outOfStock" soup
        (detailFeatStage (amazonDetailFeatures soup)
          (detailDescStage "#productDescription, #feature-bullets, #aplus" soup q))).category
        = q.category := by
      rw [A10, F10, D10]
    rw [hA, detailCatStage_truthy _ _ _ _ (by rw [hcat]; exact h), hcat]
  · exact ⟨by rw [hA, C1, A1, F1, D1], by rw [hA, C2, A2, F2, D2], by rw [hA, C3, A3, F3, D3],
      by rw [hA, C4, A4, F4, D4], by rw [hA, C5, A5, F5, D5], by rw [hA, C6, A6, F6, D6],
      by rw [hA, C7, A7, F7, D7], by rw [hA, C8, A8, F8, D8], by rw [hA, C9, A9, F9, D9]⟩

/-- A record with non-empty category and description for the C3 witness. -/
def c3wProduct : PyObj :=
  ⟨{ title := "T", url := "U", category := some "Electronics",
     description := some "old description" }, []⟩

/-- C3 witness: against a detail page where every query misses, an enriched
record keeps its description and its non-empty category, and a failed fetch
returns it unchanged. -/
theorem C3_enrichment_rules_witness :
    (darazDetails (.page blankNode) c3wProduct).fields.description
        = c3wProduct.fields.description
    ∧ (darazDetails (.page blankNode) c3wProduct).fields.category
        = c3wProduct.fields.category
    ∧ darazDetails .fetchFail c3wProduct = c3wProduct := by
  have h := C3_enrichment_rules blankNode c3wProduct darazSentinel
  exact ⟨h.2.2.2.2.1 rfl, h.2.2.2.2.2.2.2.1 (by decide), h.1⟩

/-! ### C4: field-strategy short-circuit -/

/-- The claim's reading of strategy evaluation: take each strategy's value in
order and return the first non-empty one; an empty (or missing) value proceeds
to the next strategy. -/
def firstNonEmptyVal : List (Option String) → Option String
  | [] => none
  | none :: rest => firstNonEmptyVal rest
  | some s :: rest => if s = "" then firstNonEmptyVal rest else some s

/-- The claim's reading of the price extractor: the selector strategies in
listed order followed by the currency-span fallback, first non-empty stripped
text wins. -/
def claimedPrice (item : Node) (selectors : List String) (pred : String → Bool) :
    Option String :=
  firstNonEmptyVal
    ((selectors.map (fun sel => (item.selectOne sel).map (fun e => e.text.pyStrip)))
      ++ [(item.findSpanBy pred).map (fun e => e.text.pyStrip)])

/-- The first selector in the list whose `select_one` finds an element. -/
def firstSelectorHit (item : Node) : List String → Option Node
  | [] => none
  | sel :: rest =>
    match item.selectOne sel with
    | some e => some e
    | none => firstSelectorHit item rest

/-- An element with empty text content. -/
def emptyTextNode : Node :=
  .mk "span" [] "" (fun _ => none) (fun _ => []) (fun _ => none) (fun _ => none)

/-- An element whose text is `"Rs. 100"`. -/
def rs100Node : Node :=
  .mk "span" [] "Rs. 100" (fun _ => none) (fun _ => []) (fun _ => none) (fun _ => none)

/-- A card where the first price selector matches an empty-text element and the
second matches an element with a real price. -/
def c4Item : Node :=
  .mk "div" [] ""
    (fun sel =>
      if sel = ".c13VH6, .c1-B2V" then some emptyTextNode
      else if sel = ".c3gUW0" then some rs100Node
      else none)
    (fun _ => []) (fun _ => none) (fun _ => none)

/-- C4 counterexample: the first price selector matches an element whose text
is empty; the claim says evaluation proceeds to the next strategy (which holds
`"Rs. 100"`), but the loop breaks on the matched element, so the extractor
yields nothing. -/
theorem C4_counterexample :
    darazPrice c4Item = none
    ∧ claimedPrice c4Item darazPriceSelectors darazCurrencyPred = some "Rs. 100"
    ∧ darazPrice c4Item ≠ claimedPrice c4Item darazPriceSelectors darazCurrencyPred :=
  ⟨by decide, by decide, by decide⟩

/-- C4 amended: selector strategies are evaluated in listed order and a
selector matching no element passes to the next, but the first selector that
matches an element short-circuits the whole selector chain even when the
element's stripped text is empty — in that case only the final currency-span
fallback can still supply the value.  Consequently the claim's
first-non-empty-wins rule holds exactly when every matched element (selector
hits and the fallback span) has non-empty stripped text.  `darazPrice` and
`amazonPrice` are the two site instantiations of this extractor. -/
theorem C4_strategy_short_circuit (item : Node) (selectors : List String)
    (pred : String → Bool) :
    (darazPrice item = priceFromSelectors item darazPriceSelectors darazCurrencyPred)
    ∧ (amazonPrice item = priceFromSelectors item amazonPriceSelectors amazonCurrencyPred)
    ∧ (priceFromSelectors item selectors pred =
        match firstSelectorHit item selectors with
        | some e =>
          if e.text.pyStrip ≠ "" then some e.text.pyStrip
          else (item.findSpanBy pred).map (fun x => x.text.pyStrip)
        | none => (item.findSpanBy pred).map (fun x => x.text.pyStrip))
    ∧ ((∀ sel ∈ selectors, ∀ e : Node, item.selectOne sel = some e → e.text.pyStrip ≠ "") →
       (∀ e : Node, item.findSpanBy pred = some e → e.text.pyStrip ≠ "") →
        priceFromSelectors item selectors pred = claimedPrice item selectors pred) := by
  refine ⟨rfl, rfl, ?_, ?_⟩
  · induction selectors with
    | nil => rfl
    | cons sel rest ih =>
      rcases h : item.selectOne sel with - | e
      · simp only [priceFromSelectors, selectorChainPrice, firstSelectorHit, h]
        simpa [priceFromSelectors] using ih
      · simp only [priceFromSelectors, selectorChainPrice, firstSelectorHit, h]
        by_cases ht : e.text.pyStrip = ""
        · simp [pyTruthyOptStr, ht]
        · simp [pyTruthyOptStr, ht]
  · induction selectors with
    | nil =>
      intro _ hspan
      rcases hf : item.findSpanBy pred with - | e
      · simp [priceFromSelectors, selectorChainPrice, claimedPrice, firstNonEmptyVal,
          pyTruthyOptStr, hf]
      · have ht := hspan e hf
        simp [priceFromSelectors, selectorChainPrice, claimedPrice, firstNonEmptyVal,
          pyTruthyOptStr, hf, ht]
    | cons sel rest ih =>
      intro hsel hspan
      rcases h : item.selectOne sel with - | e
      · have := ih (fun s hs e he => hsel s (List.mem_cons_of_mem sel hs) e he) hspan
        simp only [priceFromSelectors, selectorChainPrice, claimedPrice, List.map_cons,
          List.cons_append, h, Option.map_none', firstNonEmptyVal] at this ⊢
        exact this
      · have ht := hsel sel (List.mem_cons_self sel rest) e h
        simp [priceFromSelectors, selectorChainPrice, claimedPrice, firstNonEmptyVal,
          pyTruthyOptStr, h, ht]

/-- A card whose first price selector hits a real price and whose other
queries miss. -/
def c4wItem : Node :=
  .mk "div" [] ""
    (fun sel => if sel = ".c13VH6, .c1-B2V" then some rs100Node else none)
    (fun _ => []) (fun _ => none) (fun _ => none)

/-- C4 witness: when every matched element has non-empty text, the extractor
agrees with the claim's first-non-empty rule. -/
theorem C4_strategy_short_circuit_witness :
    priceFromSelectors c4wItem darazPriceSelectors darazCurrencyPred
      = claimedPrice c4wItem darazPriceSelectors darazCurrencyPred
    ∧ darazPrice c4wItem = some "Rs. 100" := by
  refine ⟨(C4_strategy_short_circuit c4wItem darazPriceSelectors darazCurrencyPred).2.2.2
    ?_ ?_, by decide⟩
  · intro sel hsel e he
    fin_cases hsel
    · rw [show c4wItem.selectOne ".c13VH6, .c1-B2V" = some rs100Node from rfl] at he
      cases he
      decide
    · rw [show c4wItem.selectOne ".c3gUW0" = none from rfl] at he
      exact Option.noConfusion he
    · rw [show c4wItem.selectOne ".c1hkC1" = none from rfl] at he
      exact Option.noConfusion he
  · intro e he
    rw [show c4wItem.findSpanBy darazCurrencyPred = none from rfl] at he
    exact Option.noConfusion he

end Scrapo
